import Mathlib

/-!
# JpegCameraFlash

A shallow embedding of `src/jpeg_camera_flash.js`, the Flash engine of the
webcam capture library, and the properties of it that are settled here.

The class is stateful and talks to its surroundings: the DOM, the swfobject
library, the embedded plugin, the timer queue, user callbacks, its base class.
Every method is a function from the camera object (`Camera`) and the
surroundings (`Env`) to a `Step`: the outcome (a returned value or a thrown
error) together with the camera and the surroundings afterwards.  What foreign
code answers (the value a plugin call returns, whether a user callback throws,
when swfobject runs the embed callback) is an argument of the method, so the
theorems hold for every answer.  Foreign code is taken to act on the camera and
on the timer queue only through the methods of the class.

Layout: the 32-bit operators and the values; the pixel conversion; the camera,
its surroundings and the methods; operations and events; then the lemmas and
the settled properties C1 to C10.
-/

namespace JpegCameraFlash

/-! ## 32-bit integer operators

The bitwise operators first convert their operands to 32-bit integers.  A value
is kept as an `Int`; `toInt32` is the signed and `toUint32` the unsigned reading
of its low 32 bits. -/

/-- Signed reading of the low 32 bits of an integer. -/
def toInt32 (x : Int) : Int :=
  let u := x % 4294967296
  if 2147483648 ≤ u then u - 4294967296 else u

/-- Unsigned reading of the low 32 bits of an integer. -/
def toUint32 (x : Int) : Nat := (x % 4294967296).toNat

/-- Operator `x >> k`: sign-propagating right shift of a 32-bit integer. -/
def signedShiftRight (x : Int) (k : Nat) : Int := toInt32 x >>> (k % 32)

/-- Operator `x & y`: the bit patterns of both operands, and-ed, read as signed. -/
def bitwiseAnd (x y : Int) : Int := toInt32 (Int.ofNat (toUint32 x &&& toUint32 y))

/-- Operator `x | y`. -/
def bitwiseOr (x y : Int) : Int := toInt32 (Int.ofNat (toUint32 x ||| toUint32 y))

/-- Operator `x << k`. -/
def shiftLeft32 (x : Int) (k : Nat) : Int := toInt32 (Int.ofNat (toUint32 x <<< (k % 32)))

/-! ## Values, errors, outcomes -/

/-- Error codes of `WebcamErrors` that this file uses. -/
inductive WebcamErrors
  | FLASH_FAILED_LOADING
  | FLASH_WINDOW_TOO_SMALL
  deriving DecidableEq, Repr

/-- Whatever can be thrown. -/
inductive JsError
  | webcamError (code : WebcamErrors)
  | typeError
  | referenceError
  | indexSizeError
  | thrownByCallee
  deriving DecidableEq, Repr

/-- An integer-valued number in the range where numbers are exact integers and
print as their plain decimal digits: magnitude at most `2 ^ 53 - 1`.  Numbers
outside it (they round, and from `10 ^ 21` on print in exponent form) and
numbers with a fraction are not values of the model. -/
abbrev SafeInt := { n : Int // n.natAbs ≤ 9007199254740991 }

/-- Values passed around: the few shapes the class handles.  An `array` holds
numbers. -/
inductive JsVal
  | undefined
  | null
  | bool (b : Bool)
  | num (n : SafeInt)
  | str (s : String)
  | ref (object : Nat)
  | array (items : List SafeInt)
  deriving DecidableEq, Repr

/-- Truthiness, as tested by `if (v)` and `!v`. -/
def JsVal.truthy : JsVal → Bool
  | .undefined => false
  | .null => false
  | .bool b => b
  | .num n => n.val != 0
  | .str s => s != ""
  | .ref _ => true
  | .array _ => true

/-- What a call into foreign code (plugin method, user callback) does. -/
inductive CallOutcome
  | returns (v : JsVal)
  | throws
  deriving DecidableEq, Repr

/-- Outcome of running a method. -/
inductive Outcome (α : Type)
  | returned (v : α)
  | threw (e : JsError)
  deriving DecidableEq, Repr

/-- A number literal with a fractional part, `mantissa * 10 ^ exponent`. -/
structure Decimal where
  mantissa : Int
  exponent : Int
  deriving DecidableEq, Repr

/-! ## Pixel conversion (`engineGetImageData`) -/

/-- Image object returned by the plugin: packed pixels and the dimensions. -/
structure FlashData where
  data : List Int
  width : Nat
  height : Nat
  deriving DecidableEq, Repr

/-- The object behind `result.data`.  With canvas support it is the byte array
of an `ImageData` (fixed length, writes past the end are dropped, stored values
are clamped to a byte); without, it is an ordinary array that grows on write
(`none` is a hole). -/
inductive PixelStore
  | clamped (bytes : List Nat)
  | ordinary (items : List (Option Int))
  deriving DecidableEq, Repr

/-- Conversion of a stored value to a clamped byte. -/
def toUint8Clamp (v : Int) : Nat :=
  if v < 0 then 0 else if 255 < v then 255 else v.toNat

/-- Assignment `data[k] = v`. -/
def PixelStore.write : PixelStore → Nat → Int → PixelStore
  | .clamped bytes, k, v =>
    .clamped (if k < bytes.length then bytes.set k (toUint8Clamp v) else bytes)
  | .ordinary items, k, v =>
    .ordinary (if k < items.length then items.set k (some v)
      else items ++ List.replicate (k - items.length) none ++ [some v])

/-- Read `data[k]`; `none` is `undefined`. -/
def PixelStore.read : PixelStore → Nat → Option Int
  | .clamped bytes, k => (bytes.get? k).map Int.ofNat
  | .ordinary items, k => (items.get? k).join

/-- Property `data.length`. -/
def PixelStore.length : PixelStore → Nat
  | .clamped bytes => bytes.length
  | .ordinary items => items.length

/-- The result object: `data`, `width`, `height`. -/
structure ImageData where
  data : PixelStore
  width : Nat
  height : Nat
  deriving DecidableEq, Repr

/-- Canvas call `context.createImageData(width, height)`: a zero-filled image of
`4 * width * height` bytes; a zero dimension is refused. -/
def createImageData (width height : Nat) : Outcome ImageData :=
  if width = 0 ∨ height = 0 then .threw .indexSizeError
  else .returned
    { data := .clamped (List.replicate (4 * width * height) 0), width := width, height := height }

/-- Loop-body constant `red`. -/
def red (pixel : Int) : Int := bitwiseAnd (signedShiftRight pixel 16) 0xff

/-- Loop-body constant `green`. -/
def green (pixel : Int) : Int := bitwiseAnd (signedShiftRight pixel 8) 0xff

/-- Loop-body constant `blue`. -/
def blue (pixel : Int) : Int := bitwiseAnd pixel 0xff

/-- One pass of the loop body of `engineGetImageData`, for the pixel at `i`. -/
def writePixel (data : PixelStore) (i : Nat) (pixel : Int) : PixelStore :=
  let index := i * 4
  (((data.write (index + 0) (red pixel)).write (index + 1) (green pixel)).write
    (index + 2) (blue pixel)).write (index + 3) 255

/-- The `for` loop of `engineGetImageData`, from index `i` on, over the pixels
not yet visited. -/
def convertLoop : List Int → Nat → PixelStore → PixelStore
  | [], _, data => data
  | pixel :: rest, i, data => convertLoop rest (i + 1) (writePixel data i pixel)

/-- A canvas element built by this class: its size and what was drawn on it,
an image put at the origin or another canvas drawn mirrored. -/
inductive Canvas
  | ofImage (width height : Nat) (image : ImageData)
  | mirrored (width height : Nat) (source : Canvas)
  deriving DecidableEq, Repr

/-- The fields of a snapshot object that this class reads or writes; `canvas`
is the size of `snapshot.canvas`, a field this class only reads. -/
structure Snapshot where
  id : Int
  imageData : Option ImageData
  extraCanvas : Option Canvas
  canvas : Option (Nat × Nat)
  deriving DecidableEq, Repr

/-! ## The camera object and its surroundings -/

/-- Element ids built by the class: the two template strings, keyed by the id. -/
inductive DomId
  | flashObject (id : Nat)
  | jpegCameraflash (id : Nat)
  deriving DecidableEq, Repr

/-- Field `this.flash`: never assigned, `null`, or a DOM element. -/
inductive FlashRef
  | undefined
  | null
  | element (e : DomId)
  deriving DecidableEq, Repr

/-- Options read by this class. -/
structure Options where
  onReady : Bool
  shutterMp3Url : Option String
  previewMirror : Bool
  swfUrl : String
  deriving DecidableEq, Repr

/-- Fields of one `JpegCameraFlash` object.  The field `self` is the identity of the
object; `instances` maps keys to object identities. -/
structure Camera where
  self : Nat
  options : Options
  viewWidth : Int
  viewHeight : Int
  instances : List (Nat × Nat)
  nextId : Nat
  id : Option Nat
  flash : FlashRef
  waitForVideoReadyTimer : Option Nat
  deriving DecidableEq, Repr

/-- A pending `setTimeout`: its handle, its delay and the object whose
`waitForVideoReady` it will run. -/
structure Timer where
  handle : Nat
  delay : Nat
  target : Nat
  deriving DecidableEq, Repr

/-- Call of a plugin method on the flash element. -/
inductive PluginCall
  | capture (snapshotId : Int) (mirror : Bool) (quality : Decimal) (scale : Decimal)
  | playShutter
  | display (snapshotId : Int)
  | getImageData (snapshotId : Int)
  | discard (snapshotId : Int)
  | showStream
  deriving DecidableEq, Repr

/-- Arguments of one `swfobject.embedSWF` call. -/
structure EmbedRequest where
  swfUrl : String
  replaceElemId : DomId
  width : Int
  height : Int
  flashvarsId : Nat
  shutterUrl : String
  attributesId : DomId
  mirrored : Bool
  deriving DecidableEq, Repr

/-- Surroundings of the class.  `swfobject` says whether `window.swfobject` is
loaded, `canvasSupported` is the answer of `isCanvasSupported()`, `document`
lists the ids of the attached elements, `timers` is the queue of pending
timeouts, `bodyFocused` says whether `document.body` was given the focus.
The remaining fields record calls made to the outside. -/
structure Env where
  swfobject : Bool
  canvasSupported : Bool
  document : List DomId
  timers : List Timer
  nextHandle : Nat
  embedCalls : List EmbedRequest
  pluginCalls : List (DomId × PluginCall)
  onReadyCalls : List (Nat × List JsVal)
  waitForVideoReadyRuns : Nat
  debugLog : List String
  toBlobCalls : List (Canvas × String × Decimal)
  baseCalls : List (String × List Int)
  bodyFocused : Bool
  deriving DecidableEq, Repr

/-- What a method leaves behind. -/
structure Step (α : Type) where
  outcome : Outcome α
  cam : Camera
  env : Env

/-- Camera and surroundings of a step, whatever its outcome. -/
def Step.state {α : Type} (s : Step α) : Camera × Env := (s.cam, s.env)

/-- Method `this.debug(message)` of the base class, kept as a log line. -/
def Env.debug (env : Env) (message : String) : Env :=
  { env with debugLog := env.debugLog ++ [message] }

/-- Lookup `document.getElementById(id)`. -/
def getElementById (env : Env) (id : DomId) : FlashRef :=
  if id ∈ env.document then .element id else .null

/-- Call `setTimeout(fn, delay)`, with `fn` running `waitForVideoReady` on `target`. -/
def setTimeout (env : Env) (target delay : Nat) : Nat × Env :=
  (env.nextHandle,
    { env with
      timers := env.timers ++ [{ handle := env.nextHandle, delay := delay, target := target }]
      nextHandle := env.nextHandle + 1 })

/-- Property read `object[key]` on the `instances` object. -/
def getKey (instances : List (Nat × Nat)) (key : Nat) : Option Nat :=
  (instances.find? (fun kv => kv.1 == key)).map Prod.snd

/-- Property write `object[key] = value` on the `instances` object. -/
def setKey (instances : List (Nat × Nat)) (key value : Nat) : List (Nat × Nat) :=
  if (getKey instances key).isSome then
    instances.map (fun kv => if kv.1 == key then (key, value) else kv)
  else instances ++ [(key, value)]

/-! ## Methods that read the plugin image -/

/-- Plugin method call `this.flash.<method>(...)`: a `TypeError` unless `flash`
is an element; otherwise the call is recorded and the plugin decides. -/
def callPlugin (cam : Camera) (env : Env) (call : PluginCall) (reply : CallOutcome) :
    Step JsVal :=
  match cam.flash with
  | .element e =>
    let env1 := { env with pluginCalls := env.pluginCalls ++ [(e, call)] }
    match reply with
    | .returns v => ⟨.returned v, cam, env1⟩
    | .throws => ⟨.threw .thrownByCallee, cam, env1⟩
  | _ => ⟨.threw .typeError, cam, env⟩

/-- Method `engineGetImageData(snapshot)`.  The argument `flashData` is what
`this.flash._get_image_data(snapshot.id)` returns. -/
def engineGetImageData (cam : Camera) (env : Env) (snapshotId : Int) (flashData : FlashData) :
    Step ImageData :=
  match cam.flash with
  | .element e =>
    let env1 := { env with pluginCalls := env.pluginCalls ++ [(e, .getImageData snapshotId)] }
    let created : Outcome ImageData :=
      if env1.canvasSupported then createImageData flashData.width flashData.height
      else .returned { data := .ordinary [], width := flashData.width, height := flashData.height }
    match created with
    | .threw err => ⟨.threw err, cam, env1⟩
    | .returned result =>
      ⟨.returned { result with data := convertLoop flashData.data 0 result.data }, cam, env1⟩
  | _ => ⟨.threw .typeError, cam, env⟩

/-! ## Readiness polling, embedding, construction -/

/-- The `try` block of `waitForVideoReady`: the probe
`this.flash._capture(1, false, 0.1, 1)` and, when it is truthy, the `onReady`
call.  `probe` is what the plugin does when `flash` is an element, `ready` what
the `onReady` callback does when called.  The first component is `some w` when
the block returned `w`, and `none` when control left it otherwise: the probe
was falsy, or something threw (the probe, the read of `_capture` off a `flash`
that is no element, the call of a missing `onReady`, or `onReady` itself) and
`catch` swallowed it. -/
def tryProbe (cam : Camera) (env : Env) (probe ready : CallOutcome) : Option JsVal × Env :=
  match cam.flash with
  | .element e =>
    let env1 :=
      { env with pluginCalls := env.pluginCalls ++ [(e, .capture 1 false ⟨1, -1⟩ ⟨1, 0⟩)] }
    match probe with
    | .returns v =>
      if v.truthy then
        if cam.options.onReady then
          let env2 := { env1 with onReadyCalls := env1.onReadyCalls ++ [(cam.self, [.null])] }
          match ready with
          | .returns w => (some w, env2)
          | .throws => (none, env2)
        else (none, env1)
      else (none, env1)
    | .throws => (none, env1)
  | _ => (none, env)

/-- Method `waitForVideoReady()`; each run is counted in `waitForVideoReadyRuns`. -/
def waitForVideoReady (cam : Camera) (env : Env) (probe ready : CallOutcome) : Step JsVal :=
  let attempt := tryProbe cam { env with waitForVideoReadyRuns := env.waitForVideoReadyRuns + 1 }
    probe ready
  match attempt.1 with
  | some w => ⟨.returned w, cam, attempt.2⟩
  | none =>
    let scheduled := setTimeout attempt.2 cam.self 500
    ⟨.returned .null, { cam with waitForVideoReadyTimer := some scheduled.1 }, scheduled.2⟩

/-- The arrow function `callback` built by `engineInit`; `flashObjectId` is the
id captured when it was built, `success` is `event.success`. -/
def callback (flashObjectId : DomId) (cam : Camera) (env : Env) (success : JsVal)
    (probe ready : CallOutcome) : Step JsVal :=
  if !success.truthy then ⟨.threw (.webcamError .FLASH_FAILED_LOADING), cam, env⟩
  else
    let env1 := env.debug "Flash loaded."
    let cam1 := { cam with flash := getElementById env1 flashObjectId }
    if cam1.options.onReady then
      let polled := waitForVideoReady cam1 env1 probe ready
      match polled.outcome with
      | .threw err => ⟨.threw err, polled.cam, polled.env⟩
      | .returned _ => ⟨.returned .null, polled.cam, polled.env⟩
    else ⟨.returned .null, cam1, env1⟩

/-- When swfobject runs the embed callback: later, from the event loop
(`deferred`), or before `embedSWF` returns (`immediate`), and then with which
`event.success` and which answers of the plugin and of `onReady`. -/
inductive EmbedReply
  | deferred
  | immediate (success : JsVal) (probe ready : CallOutcome)
  deriving DecidableEq, Repr

/-- Effect of a successful embed on the document: swfobject replaces the
placeholder by the object element carrying `attributes.id`. -/
def swfobjectReplace (env : Env) (request : EmbedRequest) : Env :=
  { env with document := env.document.erase request.replaceElemId ++ [request.attributesId] }

/-- Method `engineInit()`. -/
def engineInit (cam : Camera) (env : Env) (reply : EmbedReply) : Step Unit :=
  let env1 := env.debug "Using Flash engine"
  let cam1 := { cam with id := some cam.nextId, nextId := cam.nextId + 1 }
  let cam2 := { cam1 with instances := setKey cam1.instances cam.nextId cam1.self }
  let flashObjectId := DomId.flashObject cam.nextId
  let containerToBeReplaced := DomId.jpegCameraflash cam.nextId
  let env2 := { env1 with document := env1.document ++ [containerToBeReplaced] }
  if !env2.swfobject then ⟨.threw .referenceError, cam2, env2⟩
  else
    let request : EmbedRequest :=
      { swfUrl := cam2.options.swfUrl
        replaceElemId := containerToBeReplaced
        width := cam2.viewWidth
        height := cam2.viewHeight
        flashvarsId := cam.nextId
        shutterUrl := cam2.options.shutterMp3Url.getD ""
        attributesId := flashObjectId
        mirrored := cam2.options.previewMirror }
    let env3 := { env2 with embedCalls := env2.embedCalls ++ [request] }
    match reply with
    | .deferred => ⟨.returned (), cam2, env3⟩
    | .immediate success probe ready =>
      let env4 := if success.truthy then swfobjectReplace env3 request else env3
      let called := callback flashObjectId cam2 env4 success probe ready
      match called.outcome with
      | .threw err => ⟨.threw err, called.cam, called.env⟩
      | .returned _ => ⟨.returned (), called.cam, called.env⟩

/-- The constructor.  `self` is the fresh object; `options`, `viewWidth` and
`viewHeight` are what the base-class constructor leaves on it. -/
def construct (self : Nat) (options : Options) (viewWidth viewHeight : Int) (env : Env)
    (reply : EmbedReply) : Step Unit :=
  let cam : Camera :=
    { self := self
      options := options
      viewWidth := viewWidth
      viewHeight := viewHeight
      instances := []
      nextId := 1
      id := none
      flash := .undefined
      waitForVideoReadyTimer := none }
  engineInit cam env reply

/-- Method `destruct()`. -/
def destruct (cam : Camera) (env : Env) : Step JsVal :=
  ⟨.returned .undefined, { cam with waitForVideoReadyTimer := none }, env⟩

/-- Method `resizePreview()`; the returned value is the identity of `this`. -/
def resizePreview (cam : Camera) (env : Env) (reply : EmbedReply) : Step Nat :=
  if cam.viewWidth < 215 ∨ cam.viewHeight < 138 then
    ⟨.threw (.webcamError .FLASH_WINDOW_TOO_SMALL), cam, env⟩
  else
    match cam.flash with
    | .element e =>
      if e ∈ env.document then
        let env1 := { env with document := env.document.erase e }
        let cam1 := { cam with flash := .null }
        let inited := engineInit cam1 env1 reply
        match inited.outcome with
        | .threw err => ⟨.threw err, inited.cam, inited.env⟩
        | .returned _ => ⟨.returned inited.cam.self, inited.cam, inited.env⟩
      else ⟨.threw .typeError, cam, env⟩
    | _ => ⟨.threw .typeError, cam, env⟩

/-! ## Message dispatch and the engine check -/

/-- Decimal digits at the head of a character list, as a number; `none` when
there is no digit. -/
def parseDigits (cs : List Char) : Option Nat :=
  let digits := cs.takeWhile Char.isDigit
  if digits.isEmpty then none
  else some (digits.foldl (fun acc c => acc * 10 + (c.toNat - 48)) 0)

/-- White space that `parseInt` skips at the head of a string: tab, line feed,
vertical tab, form feed, carriage return, space, no-break space, the other
space separators, the line and paragraph separators, and the byte order mark. -/
def isStrWhiteSpace (c : Char) : Bool :=
  c.toNat ∈ [0x9, 0xA, 0xB, 0xC, 0xD, 0x20, 0xA0, 0x1680, 0x2000, 0x2001, 0x2002, 0x2003,
    0x2004, 0x2005, 0x2006, 0x2007, 0x2008, 0x2009, 0x200A, 0x2028, 0x2029, 0x202F, 0x205F,
    0x3000, 0xFEFF]

/-- Call `parseInt(s, 10)` on a string; `none` is `NaN`. -/
def parseIntString (s : String) : Option Int :=
  let cs := s.toList.dropWhile isStrWhiteSpace
  match cs with
  | '-' :: rest => (parseDigits rest).map (fun n => -Int.ofNat n)
  | '+' :: rest => (parseDigits rest).map Int.ofNat
  | _ => (parseDigits cs).map Int.ofNat

/-- Call `parseInt(id, 10)`: the argument is turned into a string and its
leading integer is read; `none` is `NaN`.  A number of the model prints as its
decimal digits, with a minus sign when negative, so reading it back gives the
number; an array prints its items joined by commas, so the first item is
read. -/
def parseInt : JsVal → Option Int
  | .num n => some n.val
  | .str s => parseIntString s
  | .array items => items.head?.map Subtype.val
  | _ => none

/-- Read `this.instances[key]` for the key computed by `parseInt`.  Keys are
compared as integers, which is what the code does as long as ids and parsed
values stay in the range where numbers are exact integers. -/
def instanceAt (instances : List (Nat × Nat)) : Option Int → Option Nat
  | some (Int.ofNat n) => getKey instances n
  | _ => none

/-- Table of functions found under an object, by property name; a function
gets its `this` and its arguments. -/
abbrev MethodTable := String → Option (Nat → List JsVal → CallOutcome)

/-- Property read `this.prototype` inside a method.  There `this` is a camera
object; the class assigns no property of that name to it (a constructor
function has one, the objects it builds do not), so the read gives `undefined`,
here `none`. -/
def Camera.prototype (_cam : Camera) : Option MethodTable := none

/-- Call `f.apply(instance, ...args)`.  The second parameter of `apply` is the
argument array, so the spread makes `args[0]` that array and drops the rest. -/
def applySpread (f : Nat → List JsVal → CallOutcome) (inst : Nat) (args : List JsVal) :
    Outcome JsVal :=
  let invoke (actual : List JsVal) : Outcome JsVal :=
    match f inst actual with
    | .returns v => .returned v
    | .throws => .threw .thrownByCallee
  match args.head? with
  | none => invoke []
  | some .undefined => invoke []
  | some .null => invoke []
  | some (.array items) => invoke (items.map JsVal.num)
  | some _ => .threw .typeError

/-- Method `sendMessage(id, method, ...args)`. -/
def sendMessage (cam : Camera) (env : Env) (id : JsVal) (method : String) (args : List JsVal) :
    Step JsVal :=
  match instanceAt cam.instances (parseInt id) with
  | none => ⟨.returned .null, cam, env⟩
  | some inst =>
    match cam.prototype with
    | none => ⟨.threw .typeError, cam, env⟩
    | some proto =>
      match proto method with
      | none => ⟨.threw .typeError, cam, env⟩
      | some f => ⟨applySpread f inst args, cam, env⟩

/-- Callback invocation made by `engineCheck`. -/
inductive CheckCall
  | failure (message : String)
  | success
  deriving DecidableEq, Repr

/-- Static `engineCheck(success, failure)`: its outcome and the callbacks it
invoked, in order.  `successDoes` and `failureDoes` say what the callbacks do. -/
def engineCheck (env : Env) (successDoes failureDoes : CallOutcome) :
    Outcome JsVal × List CheckCall :=
  let afterCheck : Option JsError × List CheckCall :=
    if !env.swfobject then
      match failureDoes with
      | .returns _ => (none, [.failure "JpegCamera: SWFObject is not loaded."])
      | .throws => (some .thrownByCallee, [.failure "JpegCamera: SWFObject is not loaded."])
    else (none, [])
  match afterCheck with
  | (some err, calls) => (.threw err, calls)
  | (none, calls) =>
    match successDoes with
    | .returns _ => (.returned .undefined, calls ++ [.success])
    | .throws => (.threw .thrownByCallee, calls ++ [.success])

/-! ## Methods that delegate to the plugin -/

/-- Method `enginePlayShutterSound()`. -/
def enginePlayShutterSound (cam : Camera) (env : Env) (reply : CallOutcome) : Step JsVal :=
  callPlugin cam env .playShutter reply

/-- Method `engineCapture(snapshot, mirror, quality, scale)`. -/
def engineCapture (cam : Camera) (env : Env) (snapshotId : Int) (mirror : Bool)
    (quality scale : Decimal) (reply : CallOutcome) : Step JsVal :=
  callPlugin cam env (.capture snapshotId mirror quality scale) reply

/-- Method `engineDisplay(snapshot)`. -/
def engineDisplay (cam : Camera) (env : Env) (snapshotId : Int) (reply : CallOutcome) :
    Step JsVal :=
  callPlugin cam env (.display snapshotId) reply

/-- Method `engineDiscard(snapshot)`. -/
def engineDiscard (cam : Camera) (env : Env) (snapshotId : Int) (reply : CallOutcome) :
    Step JsVal :=
  callPlugin cam env (.discard snapshotId) reply

/-- Method `engineShowStream()`. -/
def engineShowStream (cam : Camera) (env : Env) (reply : CallOutcome) : Step JsVal :=
  callPlugin cam env .showStream reply

/-! ## Canvas methods and `flashPrepared` -/

/-- What a method that works on a snapshot leaves behind: as `Step`, with the
snapshot object after the call. -/
structure SnapshotStep (α : Type) where
  outcome : Outcome α
  snapshot : Snapshot
  cam : Camera
  env : Env

/-- The body of `engineGetCanvas` once `snapshot.imageData` is `image`: a new
canvas of the size of the image, with the image put on it.  Without canvas
support `getContext` is missing and the call throws; with it, `putImageData`
takes an image made by `createImageData` and throws on the plain object that
the fallback branch of `engineGetImageData` builds. -/
def canvasFromImage (cam : Camera) (env : Env) (snapshot : Snapshot) (image : ImageData) :
    SnapshotStep Canvas :=
  if env.canvasSupported then
    match image.data with
    | .clamped _ => ⟨.returned (.ofImage image.width image.height image), snapshot, cam, env⟩
    | .ordinary _ => ⟨.threw .typeError, snapshot, cam, env⟩
  else ⟨.threw .typeError, snapshot, cam, env⟩

/-- Method `engineGetCanvas(snapshot)`; `flashData` is what the plugin returns
if the image has to be fetched. -/
def engineGetCanvas (cam : Camera) (env : Env) (snapshot : Snapshot) (flashData : FlashData) :
    SnapshotStep Canvas :=
  match snapshot.imageData with
  | some image => canvasFromImage cam env snapshot image
  | none =>
    let got := engineGetImageData cam env snapshot.id flashData
    match got.outcome with
    | .threw err => ⟨.threw err, snapshot, got.cam, got.env⟩
    | .returned image =>
      canvasFromImage got.cam got.env { snapshot with imageData := some image } image

/-- The body of `engineGetBlob` once `snapshot.extraCanvas` is `extra`: the
canvas to encode (with `mirror`, a new canvas of the size of `snapshot.canvas`
with `extra` drawn mirrored) and the `toBlob` request for it. -/
def blobFromCanvas (cam : Camera) (env : Env) (snapshot : Snapshot) (extra : Canvas)
    (mime : String) (mirror : Bool) (quality : Decimal) : SnapshotStep JsVal :=
  let canvas : Outcome Canvas :=
    if mirror then
      match snapshot.canvas with
      | some size => .returned (.mirrored size.1 size.2 extra)
      | none => .threw .typeError
    else .returned extra
  match canvas with
  | .threw err => ⟨.threw err, snapshot, cam, env⟩
  | .returned c =>
    ⟨.returned .undefined, snapshot, cam,
      { env with toBlobCalls := env.toBlobCalls ++ [(c, mime, quality)] }⟩

/-- Method `engineGetBlob(snapshot, mime, mirror, quality, callback)`, up to the
`toBlob` request it hands to the browser; the callback runs later, with the
encoded blob. -/
def engineGetBlob (cam : Camera) (env : Env) (snapshot : Snapshot) (mime : String)
    (mirror : Bool) (quality : Decimal) (flashData : FlashData) : SnapshotStep JsVal :=
  match snapshot.extraCanvas with
  | some extra => blobFromCanvas cam env snapshot extra mime mirror quality
  | none =>
    let got := engineGetCanvas cam env snapshot flashData
    match got.outcome with
    | .threw err => ⟨.threw err, got.snapshot, got.cam, got.env⟩
    | .returned c =>
      blobFromCanvas got.cam got.env { got.snapshot with extraCanvas := some c } c mime mirror
        quality

/-- Method `flashPrepared(width, height)`.  The base-class methods
`blockElementAccess` and `prepared` are foreign here: the calls are recorded
and the arguments say what they do. -/
def flashPrepared (cam : Camera) (env : Env) (width height : Int)
    (blockElementAccess prepared : CallOutcome) : Step JsVal :=
  let env1 := { env with baseCalls := env.baseCalls ++ [("blockElementAccess", [])] }
  match blockElementAccess with
  | .throws => ⟨.threw .thrownByCallee, cam, env1⟩
  | .returns _ =>
    let env2 := { env1 with bodyFocused := true }
    let env3 :=
      { env2 with baseCalls := env2.baseCalls ++ [("prepared", [width, height])] }
    match prepared with
    | .returns v => ⟨.returned v, cam, env3⟩
    | .throws => ⟨.threw .thrownByCallee, cam, env3⟩

/-! ## Operations and events -/

/-- Operations of the class on an existing camera, with the answers of the
surroundings they meet. -/
inductive Op
  | destruct
  | sendMessage (id : JsVal) (method : String) (args : List JsVal)
  | engineCheck (successDoes failureDoes : CallOutcome)
  | engineInit (reply : EmbedReply)
  | callback (flashObjectId : DomId) (success : JsVal) (probe ready : CallOutcome)
  | waitForVideoReady (probe ready : CallOutcome)
  | resizePreview (reply : EmbedReply)
  | enginePlayShutterSound (reply : CallOutcome)
  | engineCapture (snapshotId : Int) (mirror : Bool) (quality scale : Decimal)
      (reply : CallOutcome)
  | engineDisplay (snapshotId : Int) (reply : CallOutcome)
  | engineGetCanvas (snapshot : Snapshot) (flashData : FlashData)
  | engineGetImageData (snapshotId : Int) (flashData : FlashData)
  | engineGetBlob (snapshot : Snapshot) (mime : String) (mirror : Bool) (quality : Decimal)
      (flashData : FlashData)
  | engineDiscard (snapshotId : Int) (reply : CallOutcome)
  | engineShowStream (reply : CallOutcome)
  | flashPrepared (width height : Int) (blockElementAccess prepared : CallOutcome)

/-- Camera and surroundings after an operation, returned or thrown. -/
def Op.run : Op → Camera → Env → Camera × Env
  | .destruct, cam, env => (JpegCameraFlash.destruct cam env).state
  | .sendMessage id method args, cam, env =>
    (JpegCameraFlash.sendMessage cam env id method args).state
  | .engineCheck _ _, cam, env => (cam, env)
  | .engineInit reply, cam, env => (JpegCameraFlash.engineInit cam env reply).state
  | .callback fid success probe ready, cam, env =>
    (JpegCameraFlash.callback fid cam env success probe ready).state
  | .waitForVideoReady probe ready, cam, env =>
    (JpegCameraFlash.waitForVideoReady cam env probe ready).state
  | .resizePreview reply, cam, env => (JpegCameraFlash.resizePreview cam env reply).state
  | .enginePlayShutterSound reply, cam, env =>
    (JpegCameraFlash.enginePlayShutterSound cam env reply).state
  | .engineCapture sid mirror quality scale reply, cam, env =>
    (JpegCameraFlash.engineCapture cam env sid mirror quality scale reply).state
  | .engineDisplay sid reply, cam, env => (JpegCameraFlash.engineDisplay cam env sid reply).state
  | .engineGetImageData sid flashData, cam, env =>
    (JpegCameraFlash.engineGetImageData cam env sid flashData).state
  | .engineDiscard sid reply, cam, env => (JpegCameraFlash.engineDiscard cam env sid reply).state
  | .engineShowStream reply, cam, env => (JpegCameraFlash.engineShowStream cam env reply).state
  | .engineGetCanvas snapshot flashData, cam, env =>
    ((JpegCameraFlash.engineGetCanvas cam env snapshot flashData).cam,
      (JpegCameraFlash.engineGetCanvas cam env snapshot flashData).env)
  | .engineGetBlob snapshot mime mirror quality flashData, cam, env =>
    ((JpegCameraFlash.engineGetBlob cam env snapshot mime mirror quality flashData).cam,
      (JpegCameraFlash.engineGetBlob cam env snapshot mime mirror quality flashData).env)
  | .flashPrepared width height blockElementAccess prepared, cam, env =>
    (JpegCameraFlash.flashPrepared cam env width height blockElementAccess prepared).state

/-- The event loop runs a pending timeout: the timer leaves the queue and
`waitForVideoReady` runs on the camera it targets.  Nothing happens when no
such timer is pending for this camera. -/
def fireTimer (cam : Camera) (env : Env) (handle : Nat) (probe ready : CallOutcome) :
    Camera × Env :=
  match env.timers.find? (fun t => t.handle == handle && t.target == cam.self) with
  | some t =>
    let polled := waitForVideoReady cam { env with timers := env.timers.erase t } probe ready
    (polled.cam, polled.env)
  | none => (cam, env)

/-- swfobject finishes an embed that was left pending: on success it swaps the
placeholder for the object element, then it runs the callback of that request. -/
def completeEmbed (cam : Camera) (env : Env) (request : EmbedRequest) (success : JsVal)
    (probe ready : CallOutcome) : Camera × Env :=
  if request ∈ env.embedCalls then
    let env1 := if success.truthy then swfobjectReplace env request else env
    let called := callback request.attributesId cam env1 success probe ready
    (called.cam, called.env)
  else (cam, env)

/-- What can happen to a camera once it is built. -/
inductive Event
  | op (o : Op)
  | timer (handle : Nat) (probe ready : CallOutcome)
  | embedDone (request : EmbedRequest) (success : JsVal) (probe ready : CallOutcome)

/-- One event. -/
def Event.run : Event → Camera × Env → Camera × Env
  | .op o, s => o.run s.1 s.2
  | .timer handle probe ready, s => fireTimer s.1 s.2 handle probe ready
  | .embedDone request success probe ready, s => completeEmbed s.1 s.2 request success probe ready

/-- A sequence of events, in order. -/
def runEvents (events : List Event) (s : Camera × Env) : Camera × Env :=
  events.foldl (fun acc e => e.run acc) s

/-- One chain of readiness polls: a run of `waitForVideoReady` with the first
pair of answers (plugin probe, `onReady`), and for as long as the last run left
a timeout in the queue, the event loop taking that timeout and running the
method again with the next pair. -/
def pollChain : List (CallOutcome × CallOutcome) → Camera → Env → Camera × Env
  | [], cam, env => (cam, env)
  | (probe, ready) :: rest, cam, env =>
    let polled := waitForVideoReady cam env probe ready
    match polled.env.timers.find? (fun t => t.handle == env.nextHandle) with
    | some t => pollChain rest polled.cam { polled.env with timers := polled.env.timers.erase t }
    | none => (polled.cam, polled.env)

/-! ## Pixel packing, as the property over pixels words it -/

/-- The packed pixel `(a << 24) | (r << 16) | (g << 8) | b`, a 32-bit integer. -/
def packPixel (a r g b : Nat) : Int :=
  bitwiseOr (bitwiseOr (bitwiseOr (shiftLeft32 a 24) (shiftLeft32 r 16)) (shiftLeft32 g 8)) b

/-- Sample surroundings: swfobject loaded, canvas supported, nothing else yet. -/
def sampleEnv : Env :=
  { swfobject := true
    canvasSupported := true
    document := []
    timers := []
    nextHandle := 0
    embedCalls := []
    pluginCalls := []
    onReadyCalls := []
    waitForVideoReadyRuns := 0
    debugLog := []
    toBlobCalls := []
    baseCalls := []
    bodyFocused := false }

/-- Sample options: an `onReady` callback and nothing else. -/
def sampleOptions : Options :=
  { onReady := true, shutterMp3Url := none, previewMirror := false, swfUrl := "jpeg_camera.swf" }

/-! ## Auxiliary definitions for the statements -/

/-- The four entries the loop body stores for one pixel, in order. -/
def quad (p : Int) : List (Option Int) :=
  [some (red p), some (green p), some (blue p), some 255]

/-- The store is a clamped byte array of the given length. -/
def IsClamped (d : PixelStore) (len : Nat) : Prop :=
  ∃ bytes, d = .clamped bytes ∧ bytes.length = len

/-- Two camera states that agree on the identity of the object and on its
registration fields `id`, `nextId`, `instances`. -/
def SameRegistration (a b : Camera) : Prop :=
  a.self = b.self ∧ a.id = b.id ∧ a.nextId = b.nextId ∧ a.instances = b.instances

/-- Registration invariant of one camera object: `id` is `nextId - 1`,
`instances[id]` is the object itself, and the keys of `instances` are exactly
`1 .. nextId - 1`. -/
def Registered (cam : Camera) : Prop :=
  ∃ n, 1 ≤ n ∧ cam.id = some n ∧ cam.nextId = n + 1 ∧
    getKey cam.instances n = some cam.self ∧
    ∀ k, (getKey cam.instances k).isSome = true ↔ (1 ≤ k ∧ k ≤ n)

/-- Options without an `onReady` callback. -/
def plainOptions : Options :=
  { onReady := false, shutterMp3Url := none, previewMirror := false, swfUrl := "jpeg_camera.swf" }

/-- A camera that polls: built with `sampleOptions` at 640 by 480 in
`sampleEnv`, the embed callback having run with success and the first probe
having thrown. -/
def pollingCamera : Camera :=
  (construct 0 sampleOptions 640 480 sampleEnv (.immediate (.bool true) .throws .throws)).cam

/-- The surroundings of `pollingCamera`. -/
def pollingEnv : Env :=
  (construct 0 sampleOptions 640 480 sampleEnv (.immediate (.bool true) .throws .throws)).env

/-- A camera whose embed is still pending: built with `plainOptions` at 640 by
480 in `sampleEnv`, swfobject not having run the callback yet. -/
def pendingCamera : Camera :=
  (construct 0 plainOptions 640 480 sampleEnv .deferred).cam

/-- The surroundings of `pendingCamera`. -/
def pendingEnv : Env :=
  (construct 0 plainOptions 640 480 sampleEnv .deferred).env

/-- A camera whose plugin has loaded: built with `plainOptions` at 640 by 480 in
`sampleEnv`, the embed callback having run with success. -/
def loadedCamera : Camera :=
  (construct 0 plainOptions 640 480 sampleEnv
    (.immediate (.bool true) (.returns .undefined) (.returns .undefined))).cam

/-- The surroundings of `loadedCamera`. -/
def loadedEnv : Env :=
  (construct 0 plainOptions 640 480 sampleEnv
    (.immediate (.bool true) (.returns .undefined) (.returns .undefined))).env

/-! ## Lemmas on the 32-bit operators -/

theorem toUint32_toInt32 (x : Int) : toUint32 (toInt32 x) = toUint32 x := by
  unfold toUint32 toInt32
  simp only
  split <;> omega

theorem toUint32_lt (x : Int) : toUint32 x < 4294967296 := by
  unfold toUint32; omega

theorem toUint32_ofNat (n : Nat) (h : n < 4294967296) : toUint32 (Int.ofNat n) = n := by
  unfold toUint32; simp only [Int.ofNat_eq_coe]; omega

theorem toUint32_natCast (n : Nat) (h : n < 4294967296) : toUint32 (n : Int) = n := by
  unfold toUint32; omega

theorem bitwiseAnd_255 (x : Int) : bitwiseAnd x 0xff = x % 256 := by
  unfold bitwiseAnd
  have h : toUint32 (0xff : Int) = 255 := by decide
  rw [h, Nat.and_pow_two_sub_one_eq_mod _ 8]
  unfold toInt32 toUint32
  simp only [Int.ofNat_eq_coe]
  omega

theorem toUint32_bitwiseOr (x y : Int) :
    toUint32 (bitwiseOr x y) = toUint32 x ||| toUint32 y := by
  unfold bitwiseOr
  rw [toUint32_toInt32]
  apply toUint32_ofNat
  exact Nat.or_lt_two_pow (n := 32) (toUint32_lt x) (toUint32_lt y)

theorem toUint32_shiftLeft32 (x k : Nat) (hk : k < 32) (h : x * 2 ^ k < 4294967296) :
    toUint32 (shiftLeft32 x k) = x * 2 ^ k := by
  unfold shiftLeft32
  have hx : x < 4294967296 :=
    lt_of_le_of_lt (Nat.le_mul_of_pos_right x (Nat.two_pow_pos k)) h
  rw [toUint32_toInt32, toUint32_natCast x hx, Nat.mod_eq_of_lt hk, Nat.shiftLeft_eq]
  exact toUint32_ofNat _ h

theorem or_bytes (a r g b : Nat) (hr : r < 256) (hg : g < 256) (hb : b < 256) :
    ((a * 2 ^ 24 ||| r * 2 ^ 16) ||| g * 2 ^ 8) ||| b
      = a * 16777216 + r * 65536 + g * 256 + b := by
  have o1 : a * 2 ^ 24 ||| r * 2 ^ 16 = a * 16777216 + r * 65536 := by
    have := Nat.mul_add_lt_is_or (i := 24) (b := r * 65536) (by omega) a
    simp only [Nat.reducePow] at this ⊢
    rw [Nat.mul_comm a, ← this]
  have o2 : (a * 16777216 + r * 65536) ||| g * 2 ^ 8
      = a * 16777216 + r * 65536 + g * 256 := by
    have := Nat.mul_add_lt_is_or (i := 16) (b := g * 256) (by omega) (a * 256 + r)
    simp only [Nat.reducePow] at this ⊢
    have e : a * 16777216 + r * 65536 = 65536 * (a * 256 + r) := by omega
    rw [e, ← this]
  have o3 : (a * 16777216 + r * 65536 + g * 256) ||| b
      = a * 16777216 + r * 65536 + g * 256 + b := by
    have := Nat.mul_add_lt_is_or (i := 8) (b := b) (by omega) (a * 65536 + r * 256 + g)
    simp only [Nat.reducePow] at this
    have e : a * 16777216 + r * 65536 + g * 256 = 256 * (a * 65536 + r * 256 + g) := by omega
    rw [e, ← this]
  rw [o1, o2, o3]

theorem packPixel_eq (a r g b : Nat) (ha : a < 256) (hr : r < 256) (hg : g < 256)
    (hb : b < 256) :
    packPixel a r g b = toInt32 (Int.ofNat (a * 16777216 + r * 65536 + g * 256 + b)) := by
  rw [← or_bytes a r g b hr hg hb]
  show bitwiseOr _ _ = _
  rw [bitwiseOr, toUint32_bitwiseOr, toUint32_bitwiseOr,
    toUint32_shiftLeft32 a 24 (by omega) (by omega),
    toUint32_shiftLeft32 r 16 (by omega) (by omega),
    toUint32_shiftLeft32 g 8 (by omega) (by omega),
    toUint32_natCast b (by omega)]

theorem red_eq (p : Int) : red p = (toInt32 p / 65536) % 256 := by
  unfold red
  rw [bitwiseAnd_255]
  unfold signedShiftRight
  rw [Int.shiftRight_eq_div_pow]
  norm_num

theorem green_eq (p : Int) : green p = (toInt32 p / 256) % 256 := by
  unfold green
  rw [bitwiseAnd_255]
  unfold signedShiftRight
  rw [Int.shiftRight_eq_div_pow]
  norm_num

theorem blue_eq (p : Int) : blue p = p % 256 := by
  unfold blue
  rw [bitwiseAnd_255]

theorem red_range (p : Int) : 0 ≤ red p ∧ red p ≤ 255 := by
  rw [red_eq]; omega

theorem green_range (p : Int) : 0 ≤ green p ∧ green p ≤ 255 := by
  rw [green_eq]; omega

theorem blue_range (p : Int) : 0 ≤ blue p ∧ blue p ≤ 255 := by
  rw [blue_eq]; omega

theorem channels_of_packPixel (a r g b : Nat) (ha : a < 256) (hr : r < 256) (hg : g < 256)
    (hb : b < 256) :
    red (packPixel a r g b) = r ∧ green (packPixel a r g b) = g ∧ blue (packPixel a r g b) = b := by
  rw [red_eq, green_eq, blue_eq, packPixel_eq a r g b ha hr hg hb]
  unfold toInt32
  simp only [Int.ofNat_eq_coe]
  refine ⟨?_, ?_, ?_⟩ <;> split <;> omega

/-! ## Lemmas on the pixel loop -/


theorem writePixel_ordinary (items : List (Option Int)) (i : Nat) (p : Int)
    (h : items.length = i * 4) :
    writePixel (.ordinary items) i p = .ordinary (items ++ quad p) := by
  simp [writePixel, PixelStore.write, h, quad]

theorem convertLoop_ordinary (ps : List Int) (i : Nat) (items : List (Option Int))
    (h : items.length = i * 4) :
    convertLoop ps i (.ordinary items) = .ordinary (items ++ ps.flatMap quad) := by
  induction ps generalizing i items with
  | nil => simp [convertLoop]
  | cons p rest ih =>
    rw [convertLoop, writePixel_ordinary items i p h, ih (i + 1) (items ++ quad p)]
    · simp
    · simp [quad, h]; omega

theorem flatMap_quad_length (ps : List Int) : (ps.flatMap quad).length = 4 * ps.length := by
  induction ps with
  | nil => simp
  | cons p rest ih => simp [List.flatMap_cons, ih, quad]; omega

theorem flatMap_quad_get (ps : List Int) (i : Nat) (p : Int) (h : ps.get? i = some p) (k : Nat)
    (hk : k < 4) : (ps.flatMap quad).get? (4 * i + k) = (quad p).get? k := by
  induction ps generalizing i with
  | nil => simp at h
  | cons q rest ih =>
    cases i with
    | zero =>
      simp at h
      subst h
      simp only [List.flatMap_cons, Nat.mul_zero, Nat.zero_add, List.get?_eq_getElem?]
      rw [List.getElem?_append_left (by simp [quad]; omega)]
    | succ j =>
      simp at h
      simp only [List.flatMap_cons, List.get?_eq_getElem?]
      rw [List.getElem?_append_right (by simp [quad]; omega)]
      have e : 4 * (j + 1) + k - (quad q).length = 4 * j + k := by simp [quad]; omega
      rw [e]
      have := ih j (by simpa using h)
      simpa using this

theorem clamp_of_range (v : Int) (h : 0 ≤ v ∧ v ≤ 255) : Int.ofNat (toUint8Clamp v) = v := by
  unfold toUint8Clamp
  simp only [Int.ofNat_eq_coe]
  split
  · omega
  · split <;> omega

theorem write_clamped_read (bytes : List Nat) (k : Nat) (v : Int) (m : Nat)
    (hv : 0 ≤ v ∧ v ≤ 255) :
    (PixelStore.write (.clamped bytes) k v).read m
      = if m = k ∧ k < bytes.length then some v else (PixelStore.clamped bytes).read m := by
  unfold PixelStore.write PixelStore.read
  by_cases hk : k < bytes.length
  · simp only [hk, if_true, and_true, List.get?_eq_getElem?]
    rw [List.getElem?_set]
    by_cases hm : k = m
    · subst hm
      simp [hk]
      exact clamp_of_range v hv
    · have : ¬ m = k := fun h => hm h.symm
      simp [hm, this]
  · simp [hk]

theorem write_isClamped (d : PixelStore) (len k : Nat) (v : Int) (h : IsClamped d len) :
    IsClamped (d.write k v) len := by
  obtain ⟨bytes, rfl, hl⟩ := h
  unfold PixelStore.write
  by_cases hk : k < bytes.length
  · exact ⟨bytes.set k (toUint8Clamp v), by simp [hk], by simp [hl]⟩
  · exact ⟨bytes, by simp [hk], hl⟩

theorem write_read (d : PixelStore) (len k : Nat) (v : Int) (m : Nat) (h : IsClamped d len)
    (hv : 0 ≤ v ∧ v ≤ 255) :
    (d.write k v).read m = if m = k ∧ k < len then some v else d.read m := by
  obtain ⟨bytes, rfl, hl⟩ := h
  rw [write_clamped_read bytes k v m hv, hl]

theorem writePixel_isClamped (d : PixelStore) (len i : Nat) (p : Int) (h : IsClamped d len) :
    IsClamped (writePixel d i p) len := by
  unfold writePixel
  exact write_isClamped _ _ _ _ (write_isClamped _ _ _ _ (write_isClamped _ _ _ _
    (write_isClamped _ _ _ _ h)))

theorem writePixel_read (d : PixelStore) (len i : Nat) (p : Int) (m : Nat)
    (h : IsClamped d len) :
    (writePixel d i p).read m
      = if i * 4 ≤ m ∧ m < i * 4 + 4 ∧ m < len then ((quad p).get? (m - i * 4)).join
        else d.read m := by
  have h0 := write_isClamped d len (i * 4 + 0) (red p) h
  have h1 := write_isClamped _ len (i * 4 + 1) (green p) h0
  have h2 := write_isClamped _ len (i * 4 + 2) (blue p) h1
  unfold writePixel
  simp only
  rw [write_read _ len _ _ m h2 (by omega), write_read _ len _ _ m h1 (blue_range p),
    write_read _ len _ _ m h0 (green_range p), write_read _ len _ _ m h (red_range p)]
  by_cases c3 : m = i * 4 + 3
  · subst c3
    by_cases hl : i * 4 + 3 < len
    · have e : i * 4 + 3 - i * 4 = 3 := by omega
      simp [hl, quad, e]
    · have a0 : ¬ (i * 4 + 3 = i * 4 + 2) := by omega
      have a1 : ¬ (i * 4 + 3 = i * 4 + 1) := by omega
      have a2 : ¬ (i * 4 + 3 = i * 4 + 0) := by omega
      simp [hl, a0, a1, a2]
  · by_cases c2 : m = i * 4 + 2
    · subst c2
      by_cases hl : i * 4 + 2 < len
      · have e : i * 4 + 2 - i * 4 = 2 := by omega
        simp [hl, quad, e]
      · have a1 : ¬ (i * 4 + 2 = i * 4 + 1) := by omega
        have a2 : ¬ (i * 4 + 2 = i * 4 + 0) := by omega
        simp [hl, a1, a2]
    · by_cases c1 : m = i * 4 + 1
      · subst c1
        by_cases hl : i * 4 + 1 < len
        · have e : i * 4 + 1 - i * 4 = 1 := by omega
          simp [hl, quad, e]
        · have a2 : ¬ (i * 4 + 1 = i * 4 + 0) := by omega
          simp [hl, a2]
      · by_cases c0 : m = i * 4
        · subst c0
          by_cases hl : i * 4 < len
          · simp [hl, quad]
          · simp [hl]
        · have out : ¬ (i * 4 ≤ m ∧ m < i * 4 + 4 ∧ m < len) := by omega
          simp [c0, c1, c2, c3, out]

theorem convertLoop_clamped (ps : List Int) (len : Nat) :
    ∀ (i : Nat) (d : PixelStore), IsClamped d len →
      IsClamped (convertLoop ps i d) len ∧
      (∀ m, m < i * 4 → (convertLoop ps i d).read m = d.read m) ∧
      (∀ j p k, ps.get? j = some p → k < 4 → (i + j) * 4 + k < len →
        (convertLoop ps i d).read ((i + j) * 4 + k) = ((quad p).get? k).join) := by
  induction ps with
  | nil =>
    intro i d h
    refine ⟨h, fun _ _ => rfl, ?_⟩
    intro j p k hj
    simp at hj
  | cons q rest ih =>
    intro i d h
    have h1 := writePixel_isClamped d len i q h
    obtain ⟨f1, f2, f3⟩ := ih (i + 1) (writePixel d i q) h1
    refine ⟨f1, ?_, ?_⟩
    · intro m hm
      rw [convertLoop, f2 m (by omega), writePixel_read d len i q m h]
      have out : ¬ (i * 4 ≤ m ∧ m < i * 4 + 4 ∧ m < len) := by omega
      simp [out]
    · intro j p k hj hk hlen
      cases j with
      | zero =>
        simp at hj
        subst hj
        rw [convertLoop, f2 _ (by omega), writePixel_read d len i q _ h]
        have inr : (i * 4 ≤ (i + 0) * 4 + k ∧ (i + 0) * 4 + k < i * 4 + 4 ∧ (i + 0) * 4 + k < len) := by
          omega
        have e : (i + 0) * 4 + k - i * 4 = k := by omega
        simp only [inr, and_self, if_true, e]
      | succ j2 =>
        have hj2 : rest.get? j2 = some p := by simpa using hj
        have e : (i + (j2 + 1)) * 4 + k = (i + 1 + j2) * 4 + k := by omega
        rw [convertLoop, e]
        exact f3 j2 p k hj2 hk (by omega)

/-! ## Pixel unpacking and the conversion loop -/

/-- C8: unpacking inverts the packing `(a << 24) | (r << 16) | (g << 8) | b` of
bytes and ignores the top byte: the channels of the packed pixel are `r`, `g`,
`b`, the loop body stores `r, g, b, 255` for it, every channel of every pixel
lies in `0..255`, and two pixels that agree on their low 24 bits give the same
channels. -/
theorem unpack_inverts_packing (a r g b : Nat) (ha : a < 256) (hr : r < 256) (hg : g < 256)
    (hb : b < 256) :
    (red (packPixel a r g b) = r ∧ green (packPixel a r g b) = g ∧
      blue (packPixel a r g b) = b) ∧
    writePixel (.ordinary []) 0 (packPixel a r g b)
      = .ordinary [some (r : Int), some (g : Int), some (b : Int), some 255] ∧
    (∀ p : Int, (0 ≤ red p ∧ red p ≤ 255) ∧ (0 ≤ green p ∧ green p ≤ 255) ∧
      (0 ≤ blue p ∧ blue p ≤ 255)) ∧
    (∀ p q : Int, p % 16777216 = q % 16777216 →
      red p = red q ∧ green p = green q ∧ blue p = blue q) := by
  have hc := channels_of_packPixel a r g b ha hr hg hb
  refine ⟨hc, ?_, fun p => ⟨red_range p, green_range p, blue_range p⟩, ?_⟩
  · rw [writePixel_ordinary [] 0 _ (by simp)]
    simp [quad, hc.1, hc.2.1, hc.2.2]
  · intro p q h
    rw [red_eq, red_eq, green_eq, green_eq, blue_eq, blue_eq]
    unfold toInt32
    simp only
    refine ⟨?_, ?_, ?_⟩
    · split <;> split <;> omega
    · split <;> split <;> omega
    · omega

/-- Witness of `unpack_inverts_packing`: a pixel with top byte 200, negative as a
32-bit integer. -/
theorem unpack_inverts_packing_witness :
    ((200 : Nat) < 256 ∧ (17 : Nat) < 256 ∧ (34 : Nat) < 256 ∧ (51 : Nat) < 256) ∧
      packPixel 200 17 34 51 = -938401229 ∧
      (red (packPixel 200 17 34 51) = (17 : Nat) ∧ green (packPixel 200 17 34 51) = (34 : Nat) ∧
        blue (packPixel 200 17 34 51) = (51 : Nat)) :=
  ⟨by decide, by decide,
    (unpack_inverts_packing 200 17 34 51 (by decide) (by decide) (by decide) (by decide)).1⟩

theorem read_length_le (d : PixelStore) (m : Nat) (h : d.length ≤ m) : d.read m = none := by
  cases d with
  | clamped bytes =>
    simp only [PixelStore.length] at h
    simp [PixelStore.read, List.getElem?_eq_none h]
  | ordinary items =>
    simp only [PixelStore.length] at h
    simp [PixelStore.read, List.getElem?_eq_none h]

/-- C1 (amended): for a loaded plugin and every plugin image with `n` integer
pixels, `engineGetImageData` returns (given, with canvas support, nonzero
dimensions) an image with the width and height of the plugin image whose data
has length `4 * n` in the fallback and `4 * width * height` with canvas
support, and for every pixel `p` at `i < n` (with canvas support: and
`i < width * height`) the entries `4i .. 4i+3` are `(p >> 16) & 0xff`,
`(p >> 8) & 0xff`, `p & 0xff`, `255`; with canvas support every entry from
`4 * width * height` on reads `undefined`. -/
theorem engineGetImageData_converts (cam : Camera) (env : Env) (e : DomId) (snapshotId : Int)
    (flashData : FlashData) (hflash : cam.flash = .element e)
    (hdims : env.canvasSupported = true → flashData.width ≠ 0 ∧ flashData.height ≠ 0) :
    ∃ result, (engineGetImageData cam env snapshotId flashData).outcome = .returned result ∧
      result.width = flashData.width ∧ result.height = flashData.height ∧
      result.data.length
        = (if env.canvasSupported then 4 * flashData.width * flashData.height
          else 4 * flashData.data.length) ∧
      (∀ i p, flashData.data.get? i = some p →
        (env.canvasSupported = true → i < flashData.width * flashData.height) →
        result.data.read (4 * i) = some (red p) ∧ result.data.read (4 * i + 1) = some (green p) ∧
          result.data.read (4 * i + 2) = some (blue p) ∧ result.data.read (4 * i + 3) = some 255) ∧
      (env.canvasSupported = true →
        ∀ m, 4 * flashData.width * flashData.height ≤ m → result.data.read m = none) := by
  by_cases hc : env.canvasSupported = true
  · obtain ⟨hw, hh⟩ := hdims hc
    have init : IsClamped (.clamped (List.replicate (4 * flashData.width * flashData.height) 0))
        (4 * flashData.width * flashData.height) := ⟨_, rfl, by simp⟩
    obtain ⟨f1, _, f3⟩ := convertLoop_clamped flashData.data _ 0 _ init
    obtain ⟨bytes, hb, hlen⟩ := f1
    have hlen2 : (convertLoop flashData.data 0 (.clamped
        (List.replicate (4 * flashData.width * flashData.height) 0))).length
        = 4 * flashData.width * flashData.height := by
      rw [hb]; exact hlen
    refine ⟨ImageData.mk (convertLoop flashData.data 0
        (.clamped (List.replicate (4 * flashData.width * flashData.height) 0)))
      flashData.width flashData.height, ?_, ?_⟩
    · simp only [engineGetImageData, hflash, hc, createImageData, hw, hh, or_self, if_false,
        if_true]
    · refine ⟨rfl, rfl, ?_, ?_, ?_⟩
      · simp only [hc, if_true]
        exact hlen2
      · intro i p hp hi
        have hi2 := hi hc
        have hmul := Nat.mul_assoc 4 flashData.width flashData.height
        have g := fun k hk hl => f3 i p k hp hk hl
        simp only [Nat.zero_add] at g
        have e0 := g 0 (by omega) (by omega)
        have e1 := g 1 (by omega) (by omega)
        have e2 := g 2 (by omega) (by omega)
        have e3 := g 3 (by omega) (by omega)
        have c : i * 4 = 4 * i := by omega
        rw [c] at e0 e1 e2 e3
        simp only [Nat.add_zero] at e0
        exact ⟨by simpa [quad] using e0, by simpa [quad] using e1, by simpa [quad] using e2,
          by simpa [quad] using e3⟩
      · intro _ m hm
        exact read_length_le _ m (by rw [hlen2]; exact hm)
  · have hc2 : env.canvasSupported = false := by simpa using hc
    have hloop := convertLoop_ordinary flashData.data 0 [] (by simp)
    simp only [List.nil_append] at hloop
    refine ⟨ImageData.mk (convertLoop flashData.data 0 (.ordinary []))
      flashData.width flashData.height, ?_, ?_⟩
    · simp only [engineGetImageData, hflash, hc2, Bool.false_eq_true, if_false]
    · refine ⟨rfl, rfl, ?_, ?_, ?_⟩
      · simp only [hc2, Bool.false_eq_true, if_false]
        rw [hloop]
        exact flatMap_quad_length _
      · intro i p hp _
        simp only [hloop, PixelStore.read]
        have g := fun k hk => flatMap_quad_get flashData.data i p hp k hk
        have e0 := g 0 (by omega)
        have e1 := g 1 (by omega)
        have e2 := g 2 (by omega)
        have e3 := g 3 (by omega)
        simp only [Nat.add_zero] at e0
        rw [e0, e1, e2, e3]
        simp [quad]
      · intro h
        exact absurd h hc

/-- With canvas support and a zero dimension `createImageData` refuses, and
`engineGetImageData` throws after the plugin call. -/
theorem engineGetImageData_zero_dimension (cam : Camera) (env : Env) (e : DomId)
    (snapshotId : Int) (flashData : FlashData) (hflash : cam.flash = .element e)
    (hcanvas : env.canvasSupported = true)
    (hzero : flashData.width = 0 ∨ flashData.height = 0) :
    (engineGetImageData cam env snapshotId flashData).outcome = .threw .indexSizeError := by
  simp [engineGetImageData, hflash, hcanvas, createImageData, hzero]

/-- Witness of `engineGetImageData_converts`: one pixel on a loaded camera with
canvas support. -/
theorem engineGetImageData_converts_witness :
    loadedCamera.flash = .element (.flashObject 1) ∧
      ∃ result, (engineGetImageData loadedCamera loadedEnv 7 ⟨[0x112233], 1, 1⟩).outcome
          = .returned result ∧
        result.data.read 0 = some 0x11 ∧ result.data.read 1 = some 0x22 ∧
        result.data.read 2 = some 0x33 ∧ result.data.read 3 = some 255 :=
  ⟨by decide,
    (engineGetImageData_converts loadedCamera loadedEnv (.flashObject 1) 7 ⟨[0x112233], 1, 1⟩
      (by decide) (fun _ => ⟨by decide, by decide⟩)).elim
      (fun result h => ⟨result, h.1, by
        have g := h.2.2.2.2.1 0 0x112233 rfl (fun _ => by decide)
        have r1 : red 0x112233 = 0x11 := by decide
        have r2 : green 0x112233 = 0x22 := by decide
        have r3 : blue 0x112233 = 0x33 := by decide
        rw [r1, r2, r3] at g
        exact g⟩)⟩

/-- C1 as stated fails with canvas support when the plugin image carries more
pixels than `width * height`: for a 1 by 1 image with two pixels the data keeps
its four bytes, entry `4` (the red entry of pixel 1) reads `undefined`, while
`(p >> 16) & 0xff` is `0x44` there. -/
theorem engineGetImageData_drops_excess_pixels :
    (engineGetImageData loadedCamera loadedEnv 7 ⟨[0x112233, 0x445566], 1, 1⟩).outcome
        = .returned ⟨.clamped [0x11, 0x22, 0x33, 255], 1, 1⟩ ∧
      (PixelStore.clamped [0x11, 0x22, 0x33, 255]).read (4 * 1) = none ∧
      red 0x445566 = 0x44 := by
  decide

theorem tryProbe_env (cam : Camera) (env : Env) (probe ready : CallOutcome) :
    (tryProbe cam env probe ready).2.timers = env.timers ∧
      (tryProbe cam env probe ready).2.nextHandle = env.nextHandle ∧
      (tryProbe cam env probe ready).2.document = env.document ∧
      (tryProbe cam env probe ready).2.swfobject = env.swfobject ∧
      (tryProbe cam env probe ready).2.canvasSupported = env.canvasSupported ∧
      (tryProbe cam env probe ready).2.embedCalls = env.embedCalls ∧
      (tryProbe cam env probe ready).2.waitForVideoReadyRuns = env.waitForVideoReadyRuns ∧
      (tryProbe cam env probe ready).2.debugLog = env.debugLog := by
  unfold tryProbe
  cases cam.flash <;> cases probe <;> cases ready <;> simp only [] <;>
    (try split) <;> (try split) <;> simp

theorem waitForVideoReady_returns (cam : Camera) (env : Env) (probe ready : CallOutcome) :
    ∃ v, (waitForVideoReady cam env probe ready).outcome = .returned v := by
  unfold waitForVideoReady
  simp only
  split <;> exact ⟨_, rfl⟩

theorem waitForVideoReady_env (cam : Camera) (env : Env) (probe ready : CallOutcome) :
    env.timers.Sublist (waitForVideoReady cam env probe ready).env.timers ∧
      (waitForVideoReady cam env probe ready).env.document = env.document ∧
      (waitForVideoReady cam env probe ready).env.swfobject = env.swfobject ∧
      (waitForVideoReady cam env probe ready).env.embedCalls = env.embedCalls ∧
      (waitForVideoReady cam env probe ready).env.waitForVideoReadyRuns
        = env.waitForVideoReadyRuns + 1 := by
  have h := tryProbe_env cam { env with waitForVideoReadyRuns := env.waitForVideoReadyRuns + 1 }
    probe ready
  obtain ⟨h1, h2, h3, h4, h5, h6, h7, h8⟩ := h
  unfold waitForVideoReady
  simp only
  split
  · simp [h1, h3, h4, h6, h7]
  · simp [setTimeout, h1, h3, h4, h6, h7]

theorem waitForVideoReady_reg (cam : Camera) (env : Env) (probe ready : CallOutcome) :
    SameRegistration (waitForVideoReady cam env probe ready).cam cam := by
  unfold waitForVideoReady SameRegistration
  simp only
  split <;> simp

theorem callback_of_falsy (fid : DomId) (cam : Camera) (env : Env) (success : JsVal)
    (probe ready : CallOutcome) (hs : success.truthy = false) :
    callback fid cam env success probe ready
      = ⟨.threw (.webcamError .FLASH_FAILED_LOADING), cam, env⟩ := by
  simp [callback, hs]

theorem callback_of_truthy_polling (fid : DomId) (cam : Camera) (env : Env) (success : JsVal)
    (probe ready : CallOutcome) (hs : success.truthy = true) (hr : cam.options.onReady = true) :
    callback fid cam env success probe ready
      = ⟨.returned .null,
          (waitForVideoReady { cam with flash := getElementById (env.debug "Flash loaded.") fid }
            (env.debug "Flash loaded.") probe ready).cam,
          (waitForVideoReady { cam with flash := getElementById (env.debug "Flash loaded.") fid }
            (env.debug "Flash loaded.") probe ready).env⟩ := by
  obtain ⟨v, hv⟩ := waitForVideoReady_returns
    { cam with flash := getElementById (env.debug "Flash loaded.") fid }
    (env.debug "Flash loaded.") probe ready
  simp [callback, hs, hr, hv]

theorem callback_of_truthy_plain (fid : DomId) (cam : Camera) (env : Env) (success : JsVal)
    (probe ready : CallOutcome) (hs : success.truthy = true) (hr : cam.options.onReady = false) :
    callback fid cam env success probe ready
      = ⟨.returned .null, { cam with flash := getElementById (env.debug "Flash loaded.") fid },
          env.debug "Flash loaded."⟩ := by
  simp [callback, hs, hr]

theorem callback_outcome (fid : DomId) (cam : Camera) (env : Env) (success : JsVal)
    (probe ready : CallOutcome) :
    (callback fid cam env success probe ready).outcome
      = if success.truthy then .returned .null
        else .threw (.webcamError .FLASH_FAILED_LOADING) := by
  cases hs : success.truthy
  · rw [callback_of_falsy _ _ _ _ _ _ hs]; simp
  · cases hr : cam.options.onReady
    · rw [callback_of_truthy_plain _ _ _ _ _ _ hs hr]; simp
    · rw [callback_of_truthy_polling _ _ _ _ _ _ hs hr]; simp

theorem callback_reg (fid : DomId) (cam : Camera) (env : Env) (success : JsVal)
    (probe ready : CallOutcome) :
    SameRegistration (callback fid cam env success probe ready).cam cam := by
  cases hs : success.truthy
  · rw [callback_of_falsy _ _ _ _ _ _ hs]; exact ⟨rfl, rfl, rfl, rfl⟩
  · cases hr : cam.options.onReady
    · rw [callback_of_truthy_plain _ _ _ _ _ _ hs hr]; exact ⟨rfl, rfl, rfl, rfl⟩
    · rw [callback_of_truthy_polling _ _ _ _ _ _ hs hr]
      exact waitForVideoReady_reg _ _ _ _

theorem callback_timers (fid : DomId) (cam : Camera) (env : Env) (success : JsVal)
    (probe ready : CallOutcome) :
    env.timers.Sublist (callback fid cam env success probe ready).env.timers := by
  cases hs : success.truthy
  · rw [callback_of_falsy _ _ _ _ _ _ hs]
  · cases hr : cam.options.onReady
    · rw [callback_of_truthy_plain _ _ _ _ _ _ hs hr]; exact List.Sublist.refl _
    · rw [callback_of_truthy_polling _ _ _ _ _ _ hs hr]
      exact (waitForVideoReady_env _ (env.debug "Flash loaded.") _ _).1

theorem engineInit_reg (cam : Camera) (env : Env) (reply : EmbedReply) :
    (engineInit cam env reply).cam.self = cam.self ∧
      (engineInit cam env reply).cam.id = some cam.nextId ∧
      (engineInit cam env reply).cam.nextId = cam.nextId + 1 ∧
      (engineInit cam env reply).cam.instances = setKey cam.instances cam.nextId cam.self := by
  unfold engineInit
  simp only
  split
  · exact ⟨rfl, rfl, rfl, rfl⟩
  · cases reply with
    | deferred => exact ⟨rfl, rfl, rfl, rfl⟩
    | immediate success probe ready =>
      simp only
      split <;> exact callback_reg _ _ _ _ _ _

theorem engineInit_timers (cam : Camera) (env : Env) (reply : EmbedReply) :
    env.timers.Sublist (engineInit cam env reply).env.timers := by
  unfold engineInit
  simp only
  split
  · exact List.Sublist.refl _
  · cases reply with
    | deferred => exact List.Sublist.refl _
    | immediate success probe ready =>
      simp only
      split
      · refine List.Sublist.trans ?_ (callback_timers _ _ _ _ _ _)
        split <;> exact List.Sublist.refl _
      · refine List.Sublist.trans ?_ (callback_timers _ _ _ _ _ _)
        split <;> exact List.Sublist.refl _

theorem engineInit_outcome (cam : Camera) (env : Env) (reply : EmbedReply) :
    (engineInit cam env reply).outcome = .returned () ∨
      (engineInit cam env reply).outcome = .threw .referenceError ∨
      (engineInit cam env reply).outcome = .threw (.webcamError .FLASH_FAILED_LOADING) := by
  unfold engineInit
  simp only
  split
  · right; left; rfl
  · cases reply with
    | deferred => left; rfl
    | immediate success probe ready =>
      simp only
      split
      · rename_i err h
        rw [callback_outcome] at h
        split at h
        · cases h
        · right; right
          cases h
          rfl
      · left; rfl

theorem getElementById_debug (env : Env) (message : String) (id : DomId) :
    getElementById (env.debug message) id = getElementById env id := rfl

/-- C3: the embed callback throws exactly when `event.success` is falsy, and
then it throws `FLASH_FAILED_LOADING` and changes nothing (the flash reference
stays as it was, no poll runs, no timer is added); when `event.success` is
truthy it returns `null`, assigns `document.getElementById(flashObjectId)` to
the flash reference, and `waitForVideoReady` runs (once, on the updated camera)
if and only if the `onReady` option is set. -/
theorem callback_contract (flashObjectId : DomId) (cam : Camera) (env : Env) (success : JsVal)
    (probe ready : CallOutcome) :
    ((∃ err, (callback flashObjectId cam env success probe ready).outcome = .threw err)
        ↔ success.truthy = false) ∧
      (success.truthy = false →
        callback flashObjectId cam env success probe ready
          = ⟨.threw (.webcamError .FLASH_FAILED_LOADING), cam, env⟩) ∧
      (success.truthy = true →
        (callback flashObjectId cam env success probe ready).outcome = .returned .null ∧
        (callback flashObjectId cam env success probe ready).cam.flash
          = getElementById env flashObjectId ∧
        ((callback flashObjectId cam env success probe ready).env.waitForVideoReadyRuns
            = env.waitForVideoReadyRuns + 1 ↔ cam.options.onReady = true) ∧
        (cam.options.onReady = true →
          (callback flashObjectId cam env success probe ready).state
            = (waitForVideoReady { cam with flash := getElementById env flashObjectId }
                (env.debug "Flash loaded.") probe ready).state) ∧
        (cam.options.onReady = false →
          (callback flashObjectId cam env success probe ready).state
            = ({ cam with flash := getElementById env flashObjectId },
                env.debug "Flash loaded."))) := by
  refine ⟨?_, fun hs => callback_of_falsy _ _ _ _ _ _ hs, ?_⟩
  · rw [callback_outcome]
    cases hs : success.truthy <;> simp
  · intro hs
    cases hr : cam.options.onReady
    · rw [callback_of_truthy_plain _ _ _ _ _ _ hs hr]
      simp [Step.state, Env.debug, getElementById]
    · rw [callback_of_truthy_polling _ _ _ _ _ _ hs hr]
      have hreg := waitForVideoReady_env
        { cam with flash := getElementById (env.debug "Flash loaded.") flashObjectId }
        (env.debug "Flash loaded.") probe ready
      refine ⟨rfl, ?_, ?_, fun _ => rfl, fun h => by cases h⟩
      · show (waitForVideoReady _ _ _ _).cam.flash = _
        unfold waitForVideoReady
        simp only
        split <;> rfl
      · simp only [hreg.2.2.2.2]
        simp [Env.debug]

theorem resizePreview_of_small (cam : Camera) (env : Env) (reply : EmbedReply)
    (h : cam.viewWidth < 215 ∨ cam.viewHeight < 138) :
    resizePreview cam env reply = ⟨.threw (.webcamError .FLASH_WINDOW_TOO_SMALL), cam, env⟩ := by
  simp [resizePreview, h]

theorem resizePreview_of_large (cam : Camera) (env : Env) (reply : EmbedReply) (e : DomId)
    (h : ¬ (cam.viewWidth < 215 ∨ cam.viewHeight < 138)) (hf : cam.flash = .element e)
    (he : e ∈ env.document) :
    resizePreview cam env reply
      = match (engineInit { cam with flash := .null }
            { env with document := env.document.erase e } reply).outcome with
        | .threw err =>
          ⟨.threw err,
            (engineInit { cam with flash := .null }
              { env with document := env.document.erase e } reply).cam,
            (engineInit { cam with flash := .null }
              { env with document := env.document.erase e } reply).env⟩
        | .returned _ =>
          ⟨.returned (engineInit { cam with flash := .null }
              { env with document := env.document.erase e } reply).cam.self,
            (engineInit { cam with flash := .null }
              { env with document := env.document.erase e } reply).cam,
            (engineInit { cam with flash := .null }
              { env with document := env.document.erase e } reply).env⟩ := by
  simp [resizePreview, h, hf, he]

theorem resizePreview_of_unloaded (cam : Camera) (env : Env) (reply : EmbedReply)
    (h : ¬ (cam.viewWidth < 215 ∨ cam.viewHeight < 138))
    (hf : ∀ e, cam.flash = .element e → e ∉ env.document) :
    resizePreview cam env reply = ⟨.threw .typeError, cam, env⟩ := by
  unfold resizePreview
  simp only [h, if_false]
  split
  · rename_i e he
    simp [hf e he]
  · rfl

theorem resizePreview_large_cases (cam : Camera) (env : Env) (reply : EmbedReply)
    (h : ¬ (cam.viewWidth < 215 ∨ cam.viewHeight < 138)) :
    resizePreview cam env reply = ⟨.threw .typeError, cam, env⟩ ∨
      ∃ e, cam.flash = .element e ∧ e ∈ env.document ∧
        (resizePreview cam env reply).state
          = (engineInit { cam with flash := .null }
              { env with document := env.document.erase e } reply).state ∧
        (((resizePreview cam env reply).outcome = .returned cam.self ∧
            (engineInit { cam with flash := .null }
              { env with document := env.document.erase e } reply).outcome = .returned ()) ∨
          (resizePreview cam env reply).outcome = .threw .referenceError ∨
          (resizePreview cam env reply).outcome
            = .threw (.webcamError .FLASH_FAILED_LOADING)) := by
  by_cases hx : ∃ e, cam.flash = .element e ∧ e ∈ env.document
  · obtain ⟨e, hf, he⟩ := hx
    right
    refine ⟨e, hf, he, ?_⟩
    rw [resizePreview_of_large cam env reply e h hf he]
    have hself := (engineInit_reg { cam with flash := .null }
      { env with document := env.document.erase e } reply).1
    rcases engineInit_outcome { cam with flash := .null }
      { env with document := env.document.erase e } reply with ho | ho | ho
    · simp only [ho, Step.state, hself, true_and]
      left; trivial
    · simp only [ho, Step.state, true_and]
      right; left; trivial
    · simp only [ho, Step.state, true_and]
      right; right; trivial
  · left
    apply resizePreview_of_unloaded cam env reply h
    intro e hf he
    exact hx ⟨e, hf, he⟩

/-- C2 (amended): `resizePreview` throws `FLASH_WINDOW_TOO_SMALL` if and only if
`viewWidth < 215` or `viewHeight < 138` (so 215 by 138 passes the check); when
it throws that error, camera and surroundings are exactly as before (flash
reference, `id`, `nextId`, `instances` untouched, no `engineInit` run); when
the check passes and `flash` is not an element attached to the document it
throws a `TypeError`, again with nothing changed; otherwise it removes the
element, nulls the flash reference and runs `engineInit`, the state afterwards
is the one `engineInit` leaves, and the call either returns the camera object
itself (exactly when `engineInit` returns) or throws `engineInit`'s
`ReferenceError` or `FLASH_FAILED_LOADING`; every call that returns returns
the camera object itself. -/
theorem resizePreview_contract (cam : Camera) (env : Env) (reply : EmbedReply) :
    ((resizePreview cam env reply).outcome = .threw (.webcamError .FLASH_WINDOW_TOO_SMALL)
        ↔ (cam.viewWidth < 215 ∨ cam.viewHeight < 138)) ∧
      (cam.viewWidth = 215 → cam.viewHeight = 138 →
        (resizePreview cam env reply).outcome ≠ .threw (.webcamError .FLASH_WINDOW_TOO_SMALL)) ∧
      ((resizePreview cam env reply).outcome = .threw (.webcamError .FLASH_WINDOW_TOO_SMALL) →
        (resizePreview cam env reply).cam = cam ∧ (resizePreview cam env reply).env = env) ∧
      (∀ v, (resizePreview cam env reply).outcome = .returned v →
        v = cam.self ∧ (resizePreview cam env reply).cam.self = cam.self) ∧
      (¬ (cam.viewWidth < 215 ∨ cam.viewHeight < 138) →
        (∀ e, cam.flash = .element e → e ∉ env.document) →
        (resizePreview cam env reply).outcome = .threw .typeError ∧
          (resizePreview cam env reply).cam = cam ∧ (resizePreview cam env reply).env = env) ∧
      (¬ (cam.viewWidth < 215 ∨ cam.viewHeight < 138) →
        ∀ e, cam.flash = .element e → e ∈ env.document →
          (resizePreview cam env reply).state
            = (engineInit { cam with flash := .null }
                { env with document := env.document.erase e } reply).state ∧
          ((resizePreview cam env reply).outcome = .returned cam.self ↔
            (engineInit { cam with flash := .null }
              { env with document := env.document.erase e } reply).outcome = .returned ()) ∧
          ((resizePreview cam env reply).outcome = .returned cam.self ∨
            (resizePreview cam env reply).outcome = .threw .referenceError ∨
            (resizePreview cam env reply).outcome
              = .threw (.webcamError .FLASH_FAILED_LOADING))) := by
  have key : (resizePreview cam env reply).outcome
      = .threw (.webcamError .FLASH_WINDOW_TOO_SMALL)
        ↔ (cam.viewWidth < 215 ∨ cam.viewHeight < 138) := by
    constructor
    · intro ho
      by_contra hn
      rcases resizePreview_large_cases cam env reply hn with h1 | ⟨e, _, _, _, h2 | h2 | h2⟩
      · rw [h1] at ho; cases ho
      · rw [h2.1] at ho; cases ho
      · rw [h2] at ho; cases ho
      · rw [h2] at ho; cases ho
    · intro hs
      rw [resizePreview_of_small cam env reply hs]
  refine ⟨key, ?_, ?_, ?_, ?_, ?_⟩
  · intro hw hh ho
    have := key.mp ho
    omega
  · intro ho
    rw [resizePreview_of_small cam env reply (key.mp ho)]
    exact ⟨rfl, rfl⟩
  · intro v hv
    by_cases hs : cam.viewWidth < 215 ∨ cam.viewHeight < 138
    · rw [resizePreview_of_small cam env reply hs] at hv; cases hv
    · rcases resizePreview_large_cases cam env reply hs with h1 | ⟨e, _, _, hst, h2 | h2 | h2⟩
      · rw [h1] at hv; cases hv
      · rw [h2.1] at hv
        cases hv
        refine ⟨rfl, ?_⟩
        have hc : (resizePreview cam env reply).cam
            = (engineInit { cam with flash := .null }
              { env with document := env.document.erase e } reply).cam :=
          congrArg Prod.fst hst
        rw [hc]
        exact (engineInit_reg _ _ _).1
      · rw [h2] at hv; cases hv
      · rw [h2] at hv; cases hv
  · intro hs hf
    rw [resizePreview_of_unloaded cam env reply hs hf]
    exact ⟨rfl, rfl, rfl⟩
  · intro hs e hf he
    rw [resizePreview_of_large cam env reply e hs hf he]
    have hself := (engineInit_reg { cam with flash := .null }
      { env with document := env.document.erase e } reply).1
    rcases engineInit_outcome { cam with flash := .null }
      { env with document := env.document.erase e } reply with ho | ho | ho
    · simp only [ho, Step.state, hself, true_and]
      exact Or.inl trivial
    · simp [ho, Step.state]
    · simp [ho, Step.state]

/-- Witness of `resizePreview_contract`: on a loaded camera at 640 by 480 the
call returns the camera object 0 and leaves `id = 2`. -/
theorem resizePreview_contract_witness :
    (resizePreview loadedCamera loadedEnv .deferred).cam.id = some 2 ∧
      ((resizePreview loadedCamera loadedEnv .deferred).outcome = .returned loadedCamera.self ∨
        (resizePreview loadedCamera loadedEnv .deferred).outcome = .threw .referenceError ∨
        (resizePreview loadedCamera loadedEnv .deferred).outcome
          = .threw (.webcamError .FLASH_FAILED_LOADING)) :=
  ⟨by decide,
    ((resizePreview_contract loadedCamera loadedEnv .deferred).2.2.2.2.2 (by decide)
      (.flashObject 1) (by decide) (by decide)).2.2⟩

/-- C2 as stated fails on calls that pass the size check and throw all the
same.  A camera whose embed is still pending, at 640 by 480, has no flash
element: the call throws a `TypeError`, so it neither throws
`FLASH_WINDOW_TOO_SMALL` nor returns the camera.  A loaded camera whose new
embed fails at once throws `FLASH_FAILED_LOADING` after the flash element was
removed, the reference nulled and `engineInit` run: `id` went from 1 to 2 and
`nextId` from 2 to 3. -/
theorem resizePreview_throws_past_the_size_check :
    (pendingCamera.viewWidth = 640 ∧ pendingCamera.viewHeight = 480 ∧
      pendingCamera.flash = .undefined ∧
      (resizePreview pendingCamera pendingEnv .deferred).outcome = .threw .typeError) ∧
    (loadedCamera.flash = .element (.flashObject 1) ∧ loadedCamera.id = some 1 ∧
      loadedCamera.nextId = 2 ∧
      (resizePreview loadedCamera loadedEnv (.immediate (.bool false) .throws .throws)).outcome
        = .threw (.webcamError .FLASH_FAILED_LOADING) ∧
      (resizePreview loadedCamera loadedEnv (.immediate (.bool false) .throws .throws)).cam.flash
        = .null ∧
      (resizePreview loadedCamera loadedEnv (.immediate (.bool false) .throws .throws)).cam.id
        = some 2 ∧
      (resizePreview loadedCamera loadedEnv (.immediate (.bool false) .throws .throws)).cam.nextId
        = 3 ∧
      (resizePreview loadedCamera loadedEnv (.immediate (.bool false) .throws .throws)).env.document
        = [.jpegCameraflash 2]) := by
  decide

theorem callPlugin_frame (cam : Camera) (env : Env) (call : PluginCall) (reply : CallOutcome) :
    (callPlugin cam env call reply).cam = cam ∧
      (callPlugin cam env call reply).env.timers = env.timers := by
  unfold callPlugin
  cases cam.flash <;> cases reply <;> exact ⟨rfl, rfl⟩

theorem engineGetImageData_frame (cam : Camera) (env : Env) (snapshotId : Int)
    (flashData : FlashData) :
    (engineGetImageData cam env snapshotId flashData).cam = cam ∧
      (engineGetImageData cam env snapshotId flashData).env.timers = env.timers := by
  unfold engineGetImageData
  cases cam.flash with
  | undefined => exact ⟨rfl, rfl⟩
  | null => exact ⟨rfl, rfl⟩
  | element e =>
    simp only
    split <;> exact ⟨rfl, rfl⟩

theorem canvasFromImage_frame (cam : Camera) (env : Env) (snapshot : Snapshot)
    (image : ImageData) :
    (canvasFromImage cam env snapshot image).cam = cam ∧
      (canvasFromImage cam env snapshot image).env = env := by
  unfold canvasFromImage
  split
  · split <;> exact ⟨rfl, rfl⟩
  · exact ⟨rfl, rfl⟩

theorem engineGetCanvas_frame (cam : Camera) (env : Env) (snapshot : Snapshot)
    (flashData : FlashData) :
    (engineGetCanvas cam env snapshot flashData).cam = cam ∧
      (engineGetCanvas cam env snapshot flashData).env.timers = env.timers := by
  have h := engineGetImageData_frame cam env snapshot.id flashData
  unfold engineGetCanvas
  split
  · rw [(canvasFromImage_frame _ _ _ _).1, (canvasFromImage_frame _ _ _ _).2]
    exact ⟨rfl, rfl⟩
  · simp only
    split
    · exact h
    · rw [(canvasFromImage_frame _ _ _ _).1, (canvasFromImage_frame _ _ _ _).2]
      exact h

theorem blobFromCanvas_frame (cam : Camera) (env : Env) (snapshot : Snapshot) (extra : Canvas)
    (mime : String) (mirror : Bool) (quality : Decimal) :
    (blobFromCanvas cam env snapshot extra mime mirror quality).cam = cam ∧
      (blobFromCanvas cam env snapshot extra mime mirror quality).env.timers = env.timers := by
  unfold blobFromCanvas
  simp only
  split <;> exact ⟨rfl, rfl⟩

theorem engineGetBlob_frame (cam : Camera) (env : Env) (snapshot : Snapshot) (mime : String)
    (mirror : Bool) (quality : Decimal) (flashData : FlashData) :
    (engineGetBlob cam env snapshot mime mirror quality flashData).cam = cam ∧
      (engineGetBlob cam env snapshot mime mirror quality flashData).env.timers = env.timers := by
  have h := engineGetCanvas_frame cam env snapshot flashData
  unfold engineGetBlob
  split
  · exact blobFromCanvas_frame _ _ _ _ _ _ _
  · simp only
    split
    · exact h
    · rw [(blobFromCanvas_frame _ _ _ _ _ _ _).1, (blobFromCanvas_frame _ _ _ _ _ _ _).2]
      exact h

theorem flashPrepared_frame (cam : Camera) (env : Env) (width height : Int)
    (blockElementAccess prepared : CallOutcome) :
    (flashPrepared cam env width height blockElementAccess prepared).cam = cam ∧
      (flashPrepared cam env width height blockElementAccess prepared).env.timers
        = env.timers := by
  unfold flashPrepared
  cases blockElementAccess <;> cases prepared <;> exact ⟨rfl, rfl⟩

theorem sendMessage_frame (cam : Camera) (env : Env) (id : JsVal) (method : String)
    (args : List JsVal) :
    (sendMessage cam env id method args).cam = cam ∧
      (sendMessage cam env id method args).env = env := by
  unfold sendMessage
  split
  · exact ⟨rfl, rfl⟩
  · split
    · exact ⟨rfl, rfl⟩
    · split <;> exact ⟨rfl, rfl⟩

theorem resizePreview_timers (cam : Camera) (env : Env) (reply : EmbedReply) :
    env.timers.Sublist (resizePreview cam env reply).env.timers := by
  by_cases hs : cam.viewWidth < 215 ∨ cam.viewHeight < 138
  · rw [resizePreview_of_small cam env reply hs]
  · rcases resizePreview_large_cases cam env reply hs with h1 | ⟨e, _, _, hst, _⟩
    · rw [h1]
    · have hc : (resizePreview cam env reply).env
          = (engineInit { cam with flash := .null }
            { env with document := env.document.erase e } reply).env :=
        congrArg Prod.snd hst
      rw [hc]
      exact engineInit_timers { cam with flash := .null }
        { env with document := env.document.erase e } reply

theorem op_keeps_timers (op : Op) (cam : Camera) (env : Env) :
    env.timers.Sublist (op.run cam env).2.timers := by
  cases op with
  | destruct => exact List.Sublist.refl _
  | sendMessage id method args =>
    show env.timers.Sublist (sendMessage cam env id method args).env.timers
    rw [(sendMessage_frame cam env id method args).2]
  | engineCheck s f => exact List.Sublist.refl _
  | engineInit reply => exact engineInit_timers cam env reply
  | callback fid success probe ready => exact callback_timers fid cam env success probe ready
  | waitForVideoReady probe ready => exact (waitForVideoReady_env cam env probe ready).1
  | resizePreview reply => exact resizePreview_timers cam env reply
  | enginePlayShutterSound reply =>
    show env.timers.Sublist (callPlugin cam env _ reply).env.timers
    rw [(callPlugin_frame cam env _ reply).2]
  | engineCapture sid mirror quality scale reply =>
    show env.timers.Sublist (callPlugin cam env _ reply).env.timers
    rw [(callPlugin_frame cam env _ reply).2]
  | engineDisplay sid reply =>
    show env.timers.Sublist (callPlugin cam env _ reply).env.timers
    rw [(callPlugin_frame cam env _ reply).2]
  | engineGetImageData sid flashData =>
    show env.timers.Sublist (engineGetImageData cam env sid flashData).env.timers
    rw [(engineGetImageData_frame cam env sid flashData).2]
  | engineDiscard sid reply =>
    show env.timers.Sublist (callPlugin cam env _ reply).env.timers
    rw [(callPlugin_frame cam env _ reply).2]
  | engineShowStream reply =>
    show env.timers.Sublist (callPlugin cam env _ reply).env.timers
    rw [(callPlugin_frame cam env _ reply).2]
  | engineGetCanvas snapshot flashData =>
    show env.timers.Sublist (engineGetCanvas cam env snapshot flashData).env.timers
    rw [(engineGetCanvas_frame cam env snapshot flashData).2]
  | engineGetBlob snapshot mime mirror quality flashData =>
    show env.timers.Sublist
      (engineGetBlob cam env snapshot mime mirror quality flashData).env.timers
    rw [(engineGetBlob_frame cam env snapshot mime mirror quality flashData).2]
  | flashPrepared width height b p =>
    show env.timers.Sublist (flashPrepared cam env width height b p).env.timers
    rw [(flashPrepared_frame cam env width height b p).2]

theorem tryProbe_none (cam : Camera) (env : Env) (probe ready : CallOutcome)
    (h : probe = .throws ∨ ∃ v, probe = .returns v ∧ v.truthy = false) :
    (tryProbe cam env probe ready).1 = none := by
  unfold tryProbe
  rcases h with h | ⟨v, h, hv⟩
  · subst h
    cases cam.flash <;> rfl
  · subst h
    cases cam.flash <;> simp [hv]

theorem waitForVideoReady_of_none (cam : Camera) (env : Env) (probe ready : CallOutcome)
    (h : (tryProbe cam { env with waitForVideoReadyRuns := env.waitForVideoReadyRuns + 1 }
      probe ready).1 = none) :
    (waitForVideoReady cam env probe ready).outcome = .returned .null ∧
      (waitForVideoReady cam env probe ready).cam
        = { cam with waitForVideoReadyTimer := some env.nextHandle } ∧
      (waitForVideoReady cam env probe ready).env.timers
        = env.timers ++ [{ handle := env.nextHandle, delay := 500, target := cam.self }] ∧
      (waitForVideoReady cam env probe ready).env.nextHandle = env.nextHandle + 1 := by
  have he := tryProbe_env cam { env with waitForVideoReadyRuns := env.waitForVideoReadyRuns + 1 }
    probe ready
  unfold waitForVideoReady
  simp only [h, setTimeout, he.1, he.2.1]
  exact ⟨trivial, trivial, trivial, trivial⟩

theorem waitForVideoReady_of_some (cam : Camera) (env : Env) (probe ready : CallOutcome)
    (w : JsVal)
    (h : (tryProbe cam { env with waitForVideoReadyRuns := env.waitForVideoReadyRuns + 1 }
      probe ready).1 = some w) :
    (waitForVideoReady cam env probe ready).outcome = .returned w ∧
      (waitForVideoReady cam env probe ready).cam = cam ∧
      (waitForVideoReady cam env probe ready).env.timers = env.timers ∧
      (waitForVideoReady cam env probe ready).env.nextHandle = env.nextHandle := by
  have he := tryProbe_env cam { env with waitForVideoReadyRuns := env.waitForVideoReadyRuns + 1 }
    probe ready
  unfold waitForVideoReady
  simp only [h, he.1, he.2.1]
  exact ⟨trivial, trivial, trivial, trivial⟩

theorem fireTimer_of_pending (cam : Camera) (env : Env) (t : Timer) (probe ready : CallOutcome)
    (ht : t ∈ env.timers) (hself : t.target = cam.self) :
    ∃ t2, t2 ∈ env.timers ∧ t2.handle = t.handle ∧
      fireTimer cam env t.handle probe ready
        = (waitForVideoReady cam { env with timers := env.timers.erase t2 } probe ready).state := by
  unfold fireTimer
  cases hfind : env.timers.find? (fun u => u.handle == t.handle && u.target == cam.self) with
  | none =>
    rw [List.find?_eq_none] at hfind
    have := hfind t ht
    simp [hself] at this
  | some t2 =>
    have hmem := List.mem_of_find?_eq_some hfind
    have hp := List.find?_some hfind
    simp only [Bool.and_eq_true, beq_iff_eq] at hp
    exact ⟨t2, hmem, hp.1, rfl⟩

/-- C7: the readiness poll has no cancellation.  `destruct` only sets the
stored handle `waitForVideoReadyTimer` to `null` and leaves the surroundings,
pending timers included, as they are; a timer of this camera pending before
`destruct` still fires afterwards and runs `waitForVideoReady`, which, when the
probe throws or is falsy, schedules the next run after 500 ms; and no
operation of the class removes a pending timer. -/
theorem destruct_keeps_timers (cam : Camera) (env : Env) :
    (destruct cam env).cam = { cam with waitForVideoReadyTimer := none } ∧
      (destruct cam env).env = env ∧
      (∀ t, t ∈ env.timers → t.target = cam.self → ∀ probe ready,
        (fireTimer (destruct cam env).cam (destruct cam env).env t.handle probe
            ready).2.waitForVideoReadyRuns = env.waitForVideoReadyRuns + 1 ∧
        ((probe = .throws ∨ ∃ v, probe = .returns v ∧ v.truthy = false) →
          { handle := env.nextHandle, delay := 500, target := cam.self }
              ∈ (fireTimer (destruct cam env).cam (destruct cam env).env t.handle probe
                  ready).2.timers ∧
            (fireTimer (destruct cam env).cam (destruct cam env).env t.handle probe
                ready).1.waitForVideoReadyTimer = some env.nextHandle)) ∧
      (∀ op : Op, env.timers.Sublist (op.run cam env).2.timers) ∧
      (∀ self options viewWidth viewHeight reply,
        env.timers.Sublist (construct self options viewWidth viewHeight env reply).env.timers) := by
  refine ⟨rfl, rfl, ?_, fun op => op_keeps_timers op cam env,
    fun _ _ _ _ _ => engineInit_timers _ env _⟩
  intro t ht hself probe ready
  obtain ⟨t2, _, _, hfire⟩ := fireTimer_of_pending
    { cam with waitForVideoReadyTimer := none } env t probe ready ht hself
  have hfire2 : fireTimer (destruct cam env).cam (destruct cam env).env t.handle probe ready
      = (waitForVideoReady { cam with waitForVideoReadyTimer := none }
          { env with timers := env.timers.erase t2 } probe ready).state := hfire
  rw [hfire2]
  refine ⟨?_, ?_⟩
  · exact (waitForVideoReady_env _ { env with timers := env.timers.erase t2 } probe ready).2.2.2.2
  · intro hp
    have hn := tryProbe_none { cam with waitForVideoReadyTimer := none }
      { env with timers := env.timers.erase t2,
                 waitForVideoReadyRuns := env.waitForVideoReadyRuns + 1 } probe ready hp
    obtain ⟨_, hcam, htim, _⟩ := waitForVideoReady_of_none
      { cam with waitForVideoReadyTimer := none }
      { env with timers := env.timers.erase t2 } probe ready hn
    refine ⟨?_, ?_⟩
    · show _ ∈ (waitForVideoReady _ _ _ _).env.timers
      rw [htim]
      simp
    · show (waitForVideoReady _ _ _ _).cam.waitForVideoReadyTimer = _
      rw [hcam]

/-- Witness of `destruct_keeps_timers`: a camera whose first probe threw has
timer 0 pending; after `destruct` that timer fires, the probe throws again, and
timer 1 is pending. -/
theorem destruct_keeps_timers_witness :
    pollingEnv.timers = [{ handle := 0, delay := 500, target := 0 }] ∧
      ({ handle := 1, delay := 500, target := 0 } : Timer)
        ∈ (fireTimer (destruct pollingCamera pollingEnv).cam (destruct pollingCamera pollingEnv).env
            0 .throws .throws).2.timers :=
  ⟨by decide,
    (((destruct_keeps_timers pollingCamera pollingEnv).2.2.1
      { handle := 0, delay := 500, target := 0 } (by decide) (by decide) .throws .throws).2
      (Or.inl rfl)).1⟩

theorem getKey_setKey_new (instances : List (Nat × Nat)) (key value k : Nat)
    (h : getKey instances key = none) :
    getKey (setKey instances key value) k
      = if (getKey instances k).isSome then getKey instances k
        else if k = key then some value else none := by
  unfold setKey
  simp only [h, Option.isSome_none, Bool.false_eq_true, if_false]
  unfold getKey
  rw [List.find?_append]
  cases hf : instances.find? (fun kv => kv.1 == k) with
  | some kv => simp
  | none =>
    by_cases hk : k = key
    · simp [hk]
    · have : ¬ key = k := fun e => hk e.symm
      simp [hk, this]

theorem engineInit_registered (cam : Camera) (env : Env) (reply : EmbedReply)
    (hpos : 1 ≤ cam.nextId)
    (hkeys : ∀ k, (getKey cam.instances k).isSome = true ↔ (1 ≤ k ∧ k < cam.nextId)) :
    Registered (engineInit cam env reply).cam := by
  obtain ⟨h1, h2, h3, h4⟩ := engineInit_reg cam env reply
  have hnew : getKey cam.instances cam.nextId = none := by
    cases hg : getKey cam.instances cam.nextId with
    | none => rfl
    | some v =>
      have := (hkeys cam.nextId).mp (by simp [hg])
      omega
  refine ⟨cam.nextId, hpos, h2, h3, ?_, ?_⟩
  · rw [h4, h1, getKey_setKey_new _ _ _ _ hnew]
    simp [hnew]
  · intro k
    rw [h4, getKey_setKey_new _ _ _ _ hnew]
    by_cases hs : (getKey cam.instances k).isSome = true
    · have := (hkeys k).mp hs
      simp only [hs, if_true]
      constructor
      · intro _; omega
      · intro _
        first
          | exact hs
          | trivial
    · have hn : ¬ (1 ≤ k ∧ k < cam.nextId) := fun c => hs ((hkeys k).mpr c)
      simp only [hs, Bool.false_eq_true, if_false]
      by_cases hk : k = cam.nextId
      · simp [hk]; omega
      · simp only [hk, if_false, Option.isSome_none, Bool.false_eq_true, false_iff]
        omega

theorem Registered_of_same (a b : Camera) (h : SameRegistration a b) (hb : Registered b) :
    Registered a := by
  obtain ⟨h1, h2, h3, h4⟩ := h
  obtain ⟨n, hn, hid, hnext, hget, hkeys⟩ := hb
  exact ⟨n, hn, by rw [h2, hid], by rw [h3, hnext], by rw [h4, h1, hget], by rw [h4]; exact hkeys⟩

theorem Registered_keys (cam : Camera) (h : Registered cam) :
    1 ≤ cam.nextId ∧
      ∀ k, (getKey cam.instances k).isSome = true ↔ (1 ≤ k ∧ k < cam.nextId) := by
  obtain ⟨n, hn, _, hnext, _, hkeys⟩ := h
  refine ⟨by omega, fun k => ?_⟩
  rw [hkeys k, hnext]
  omega

theorem engineInit_keeps_registered (cam : Camera) (env : Env) (reply : EmbedReply)
    (h : Registered cam) : Registered (engineInit cam env reply).cam :=
  engineInit_registered cam env reply (Registered_keys cam h).1 (Registered_keys cam h).2

theorem resizePreview_keeps_registered (cam : Camera) (env : Env) (reply : EmbedReply)
    (h : Registered cam) :
    Registered (resizePreview cam env reply).cam ∧
      (resizePreview cam env reply).cam.self = cam.self := by
  by_cases hs : cam.viewWidth < 215 ∨ cam.viewHeight < 138
  · rw [resizePreview_of_small cam env reply hs]
    exact ⟨h, rfl⟩
  · rcases resizePreview_large_cases cam env reply hs with h1 | ⟨e, _, _, hst, _⟩
    · rw [h1]
      exact ⟨h, rfl⟩
    · have hc : (resizePreview cam env reply).cam
          = (engineInit { cam with flash := .null }
            { env with document := env.document.erase e } reply).cam :=
        congrArg Prod.fst hst
      rw [hc]
      refine ⟨engineInit_keeps_registered _ _ _ ?_, (engineInit_reg _ _ _).1⟩
      exact Registered_of_same _ cam ⟨rfl, rfl, rfl, rfl⟩ h

theorem op_keeps_registered (op : Op) (cam : Camera) (env : Env) (h : Registered cam) :
    Registered (op.run cam env).1 ∧ (op.run cam env).1.self = cam.self := by
  cases op with
  | destruct => exact ⟨Registered_of_same _ cam ⟨rfl, rfl, rfl, rfl⟩ h, rfl⟩
  | sendMessage id method args =>
    have hc : ((Op.sendMessage id method args).run cam env).1 = cam :=
      (sendMessage_frame cam env id method args).1
    rw [hc]
    exact ⟨h, rfl⟩
  | engineCheck s f => exact ⟨h, rfl⟩
  | engineInit reply =>
    exact ⟨engineInit_keeps_registered cam env reply h, (engineInit_reg cam env reply).1⟩
  | callback fid success probe ready =>
    exact ⟨Registered_of_same _ cam (callback_reg fid cam env success probe ready) h,
      (callback_reg fid cam env success probe ready).1⟩
  | waitForVideoReady probe ready =>
    exact ⟨Registered_of_same _ cam (waitForVideoReady_reg cam env probe ready) h,
      (waitForVideoReady_reg cam env probe ready).1⟩
  | resizePreview reply => exact resizePreview_keeps_registered cam env reply h
  | enginePlayShutterSound reply =>
    have hc : ((Op.enginePlayShutterSound reply).run cam env).1 = cam := (callPlugin_frame cam env _ reply).1
    rw [hc]
    exact ⟨h, rfl⟩
  | engineCapture sid mirror quality scale reply =>
    have hc : ((Op.engineCapture sid mirror quality scale reply).run cam env).1 = cam := (callPlugin_frame cam env _ reply).1
    rw [hc]
    exact ⟨h, rfl⟩
  | engineDisplay sid reply =>
    have hc : ((Op.engineDisplay sid reply).run cam env).1 = cam := (callPlugin_frame cam env _ reply).1
    rw [hc]
    exact ⟨h, rfl⟩
  | engineGetImageData sid flashData =>
    have hc : ((Op.engineGetImageData sid flashData).run cam env).1 = cam :=
      (engineGetImageData_frame cam env sid flashData).1
    rw [hc]
    exact ⟨h, rfl⟩
  | engineDiscard sid reply =>
    have hc : ((Op.engineDiscard sid reply).run cam env).1 = cam := (callPlugin_frame cam env _ reply).1
    rw [hc]
    exact ⟨h, rfl⟩
  | engineShowStream reply =>
    have hc : ((Op.engineShowStream reply).run cam env).1 = cam := (callPlugin_frame cam env _ reply).1
    rw [hc]
    exact ⟨h, rfl⟩
  | engineGetCanvas snapshot flashData =>
    have hc : ((Op.engineGetCanvas snapshot flashData).run cam env).1 = cam :=
      (engineGetCanvas_frame cam env snapshot flashData).1
    rw [hc]
    exact ⟨h, rfl⟩
  | engineGetBlob snapshot mime mirror quality flashData =>
    have hc : ((Op.engineGetBlob snapshot mime mirror quality flashData).run cam env).1 = cam :=
      (engineGetBlob_frame cam env snapshot mime mirror quality flashData).1
    rw [hc]
    exact ⟨h, rfl⟩
  | flashPrepared width height b p =>
    have hc : ((Op.flashPrepared width height b p).run cam env).1 = cam :=
      (flashPrepared_frame cam env width height b p).1
    rw [hc]
    exact ⟨h, rfl⟩

theorem fireTimer_reg (cam : Camera) (env : Env) (handle : Nat) (probe ready : CallOutcome) :
    SameRegistration (fireTimer cam env handle probe ready).1 cam := by
  unfold fireTimer
  split
  · exact waitForVideoReady_reg _ _ _ _
  · exact ⟨rfl, rfl, rfl, rfl⟩

theorem completeEmbed_reg (cam : Camera) (env : Env) (request : EmbedRequest) (success : JsVal)
    (probe ready : CallOutcome) :
    SameRegistration (completeEmbed cam env request success probe ready).1 cam := by
  unfold completeEmbed
  split
  · exact callback_reg _ _ _ _ _ _
  · exact ⟨rfl, rfl, rfl, rfl⟩

theorem event_keeps_registered (e : Event) (s : Camera × Env) (h : Registered s.1) :
    Registered (e.run s).1 ∧ (e.run s).1.self = s.1.self := by
  cases e with
  | op o => exact op_keeps_registered o s.1 s.2 h
  | timer handle probe ready =>
    exact ⟨Registered_of_same _ s.1 (fireTimer_reg s.1 s.2 handle probe ready) h,
      (fireTimer_reg s.1 s.2 handle probe ready).1⟩
  | embedDone request success probe ready =>
    exact ⟨Registered_of_same _ s.1 (completeEmbed_reg s.1 s.2 request success probe ready) h,
      (completeEmbed_reg s.1 s.2 request success probe ready).1⟩

theorem runEvents_keeps_registered (events : List Event) (s : Camera × Env)
    (h : Registered s.1) :
    Registered (runEvents events s).1 ∧ (runEvents events s).1.self = s.1.self := by
  induction events generalizing s with
  | nil => exact ⟨h, rfl⟩
  | cons e rest ih =>
    have h1 := event_keeps_registered e s h
    have h2 := ih (e.run s) h1.1
    show Registered (runEvents rest (e.run s)).1 ∧ (runEvents rest (e.run s)).1.self = s.1.self
    exact ⟨h2.1, by rw [h2.2, h1.2]⟩

theorem construct_registered (self : Nat) (options : Options) (viewWidth viewHeight : Int)
    (env : Env) (reply : EmbedReply) :
    Registered (construct self options viewWidth viewHeight env reply).cam ∧
      (construct self options viewWidth viewHeight env reply).cam.self = self ∧
      (construct self options viewWidth viewHeight env reply).cam.id = some 1 ∧
      (construct self options viewWidth viewHeight env reply).cam.nextId = 2 := by
  unfold construct
  refine ⟨engineInit_registered _ _ _ (Nat.le_refl 1) ?_, (engineInit_reg _ _ _).1,
    (engineInit_reg _ _ _).2.1, (engineInit_reg _ _ _).2.2.1⟩
  intro k
  simp [getKey]
  omega

theorem resizePreview_returned_reg (cam : Camera) (env : Env) (reply : EmbedReply) (v : Nat)
    (h : (resizePreview cam env reply).outcome = .returned v) :
    (resizePreview cam env reply).cam.id = some cam.nextId ∧
      (resizePreview cam env reply).cam.nextId = cam.nextId + 1 := by
  by_cases hs : cam.viewWidth < 215 ∨ cam.viewHeight < 138
  · rw [resizePreview_of_small cam env reply hs] at h; cases h
  · rcases resizePreview_large_cases cam env reply hs with h1 | ⟨e, _, _, hst, _⟩
    · rw [h1] at h; cases h
    · have hc : (resizePreview cam env reply).cam
          = (engineInit { cam with flash := .null }
            { env with document := env.document.erase e } reply).cam :=
        congrArg Prod.fst hst
      rw [hc]
      exact ⟨(engineInit_reg _ _ _).2.1, (engineInit_reg _ _ _).2.2.1⟩

/-- C10: registration invariant within one camera object.  The constructor
leaves `id = 1` and `nextId = 2`.  In the state reached from construction by
any sequence of events (calls of the methods, among them `resizePreview`,
returning or throwing; timers firing; embeds completing) there is `n ≥ 1` with
`id = n`, `nextId = n + 1`, `instances[n]` the camera itself, and the keys of
`instances` exactly `1 .. n`; every `engineInit` run from there, and every
returning `resizePreview`, leaves `id = n + 1` and `nextId = n + 2`. -/
theorem registration_invariant (self : Nat) (options : Options) (viewWidth viewHeight : Int)
    (env : Env) (reply : EmbedReply) (events : List Event) :
    ((construct self options viewWidth viewHeight env reply).cam.id = some 1 ∧
      (construct self options viewWidth viewHeight env reply).cam.nextId = 2) ∧
    ∃ n, 1 ≤ n ∧
      (runEvents events (construct self options viewWidth viewHeight env reply).state).1.self
        = self ∧
      (runEvents events (construct self options viewWidth viewHeight env reply).state).1.id
        = some n ∧
      (runEvents events (construct self options viewWidth viewHeight env reply).state).1.nextId
        = n + 1 ∧
      getKey (runEvents events
        (construct self options viewWidth viewHeight env reply).state).1.instances n = some self ∧
      (∀ k, (getKey (runEvents events
          (construct self options viewWidth viewHeight env reply).state).1.instances k).isSome
            = true ↔ (1 ≤ k ∧ k ≤ n)) ∧
      (∀ env2 reply2,
        (engineInit (runEvents events
            (construct self options viewWidth viewHeight env reply).state).1 env2 reply2).cam.id
          = some (n + 1) ∧
        (engineInit (runEvents events
            (construct self options viewWidth viewHeight env reply).state).1 env2 reply2).cam.nextId
          = n + 2) ∧
      (∀ env2 reply2 v,
        (resizePreview (runEvents events
            (construct self options viewWidth viewHeight env reply).state).1 env2 reply2).outcome
          = .returned v →
        (resizePreview (runEvents events
            (construct self options viewWidth viewHeight env reply).state).1 env2 reply2).cam.id
          = some (n + 1) ∧
        (resizePreview (runEvents events
            (construct self options viewWidth viewHeight env reply).state).1 env2
            reply2).cam.nextId = n + 2) := by
  obtain ⟨c1, c2, c3, c4⟩ := construct_registered self options viewWidth viewHeight env reply
  refine ⟨⟨c3, c4⟩, ?_⟩
  obtain ⟨hreg, hself⟩ := runEvents_keeps_registered events
    (construct self options viewWidth viewHeight env reply).state c1
  obtain ⟨n, hn, hid, hnext, hget, hkeys⟩ := hreg
  have hself2 : (runEvents events
      (construct self options viewWidth viewHeight env reply).state).1.self = self := by
    rw [hself]; exact c2
  refine ⟨n, hn, hself2, hid, hnext, by rw [hget, hself2], hkeys, ?_, ?_⟩
  · intro env2 reply2
    obtain ⟨_, e2, e3, _⟩ := engineInit_reg (runEvents events
      (construct self options viewWidth viewHeight env reply).state).1 env2 reply2
    rw [e2, e3, hnext]
    exact ⟨rfl, rfl⟩
  · intro env2 reply2 v hv
    obtain ⟨e2, e3⟩ := resizePreview_returned_reg _ env2 reply2 v hv
    rw [e2, e3, hnext]
    exact ⟨rfl, rfl⟩

/-- Witness of `registration_invariant`: after construction and one returning
`resizePreview` the camera has `id = 2`, `nextId = 3`. -/
theorem registration_invariant_witness :
    (runEvents [.op (.resizePreview .deferred)]
        (construct 0 plainOptions 640 480 sampleEnv
          (.immediate (.bool true) (.returns .undefined) (.returns .undefined))).state).1.id
        = some 2 ∧
      ∃ n, 1 ≤ n ∧
        (runEvents [.op (.resizePreview .deferred)]
          (construct 0 plainOptions 640 480 sampleEnv
            (.immediate (.bool true) (.returns .undefined) (.returns .undefined))).state).1.nextId
          = n + 1 :=
  ⟨by decide,
    (registration_invariant 0 plainOptions 640 480 sampleEnv
      (.immediate (.bool true) (.returns .undefined) (.returns .undefined))
      [.op (.resizePreview .deferred)]).2.elim
      (fun n h => ⟨n, h.1, h.2.2.2.1⟩)⟩

/-- For every id under which an instance is registered, `sendMessage` throws a
`TypeError` and invokes nothing; for any other id it returns `null`. -/
theorem sendMessage_outcome (cam : Camera) (env : Env) (id : JsVal) (method : String)
    (args : List JsVal) :
    (sendMessage cam env id method args).outcome
      = if (instanceAt cam.instances (parseInt id)).isSome then .threw .typeError
        else .returned .null := by
  unfold sendMessage
  cases instanceAt cam.instances (parseInt id) <;> simp [Camera.prototype]

/-- C4 fails on the code: on a camera registered under id 1 the call
`sendMessage(1, 'flashPrepared', 640, 480)` (the id given as a number or as the
string `"1"`) throws a `TypeError` instead of invoking the method, because
`this.prototype` is `undefined` on an instance.  An id that is not registered
gives `null`. -/
theorem sendMessage_throws_for_registered_id :
    instanceAt loadedCamera.instances (parseInt (.num ⟨1, by decide⟩)) = some loadedCamera.self ∧
      (sendMessage loadedCamera loadedEnv (.num ⟨1, by decide⟩) "flashPrepared" [.num ⟨640, by decide⟩, .num ⟨480, by decide⟩]).outcome
        = .threw .typeError ∧
      (sendMessage loadedCamera loadedEnv (.str "1") "flashPrepared" [.num ⟨640, by decide⟩, .num ⟨480, by decide⟩]).outcome
        = .threw .typeError ∧
      (sendMessage loadedCamera loadedEnv (.num ⟨2, by decide⟩) "flashPrepared" [.num ⟨640, by decide⟩, .num ⟨480, by decide⟩]).outcome
        = .returned .null := by
  decide

/-- C5 fails on the code: two cameras built one after the other, as distinct
objects 0 and 1, both get `id = 1`, and both embeds use the element ids
`jpeg_cameraflash_1` and `flash_object_1`. -/
theorem two_cameras_share_id :
    (construct 0 sampleOptions 640 480 sampleEnv .deferred).cam.self = 0 ∧
      (construct 1 sampleOptions 640 480
        (construct 0 sampleOptions 640 480 sampleEnv .deferred).env .deferred).cam.self = 1 ∧
      (construct 0 sampleOptions 640 480 sampleEnv .deferred).cam.id = some 1 ∧
      (construct 1 sampleOptions 640 480
        (construct 0 sampleOptions 640 480 sampleEnv .deferred).env .deferred).cam.id = some 1 ∧
      (construct 1 sampleOptions 640 480
        (construct 0 sampleOptions 640 480 sampleEnv .deferred).env .deferred).env.embedCalls.map
          (fun request => (request.replaceElemId, request.attributesId))
        = [(.jpegCameraflash 1, .flashObject 1), (.jpegCameraflash 1, .flashObject 1)] := by
  decide

theorem tryProbe_onReadyCalls_of_none (cam : Camera) (env : Env) (probe ready : CallOutcome)
    (h : probe = .throws ∨ ∃ v, probe = .returns v ∧ v.truthy = false) :
    (tryProbe cam env probe ready).2.onReadyCalls = env.onReadyCalls := by
  unfold tryProbe
  rcases h with h | ⟨v, h, hv⟩
  · subst h
    cases cam.flash <;> rfl
  · subst h
    cases cam.flash <;> simp [hv]

/-- A run of `waitForVideoReady` whose probe throws or is falsy: `onReady` is
not invoked, one timer of 500 ms for this camera joins the queue, and `null`
is returned. -/
theorem waitForVideoReady_on_failed_probe (cam : Camera) (env : Env) (probe ready : CallOutcome)
    (h : probe = .throws ∨ ∃ v, probe = .returns v ∧ v.truthy = false) :
    (waitForVideoReady cam env probe ready).outcome = .returned .null ∧
      (waitForVideoReady cam env probe ready).env.onReadyCalls = env.onReadyCalls ∧
      (waitForVideoReady cam env probe ready).env.timers
        = env.timers ++ [{ handle := env.nextHandle, delay := 500, target := cam.self }] := by
  have hn := tryProbe_none cam
    { env with waitForVideoReadyRuns := env.waitForVideoReadyRuns + 1 } probe ready h
  have hc := tryProbe_onReadyCalls_of_none cam
    { env with waitForVideoReadyRuns := env.waitForVideoReadyRuns + 1 } probe ready h
  obtain ⟨h1, _, h3, _⟩ := waitForVideoReady_of_none cam env probe ready hn
  refine ⟨h1, ?_, h3⟩
  unfold waitForVideoReady
  simp only [hn, setTimeout, hc]

/-- A run of `waitForVideoReady` on a loaded camera with an `onReady` option
whose probe is truthy: `onReady` is invoked once, with `this` the camera and
the argument `null`; when it returns, its value is returned and no timer is
added; when it throws, the exception is caught and a timer of 500 ms is added
all the same. -/
theorem waitForVideoReady_on_truthy_probe (cam : Camera) (env : Env) (e : DomId) (v : JsVal)
    (ready : CallOutcome) (hflash : cam.flash = .element e) (hv : v.truthy = true)
    (hready : cam.options.onReady = true) :
    (waitForVideoReady cam env (.returns v) ready).env.onReadyCalls
        = env.onReadyCalls ++ [(cam.self, [.null])] ∧
      (∀ w, ready = .returns w →
        (waitForVideoReady cam env (.returns v) ready).outcome = .returned w ∧
        (waitForVideoReady cam env (.returns v) ready).env.timers = env.timers) ∧
      (ready = .throws →
        (waitForVideoReady cam env (.returns v) ready).outcome = .returned .null ∧
        (waitForVideoReady cam env (.returns v) ready).env.timers
          = env.timers ++ [{ handle := env.nextHandle, delay := 500, target := cam.self }]) := by
  cases ready with
  | returns w =>
    simp [waitForVideoReady, tryProbe, hflash, hv, hready]
  | throws =>
    simp [waitForVideoReady, tryProbe, hflash, hv, hready, setTimeout]

/-- C6 fails on the code when `onReady` throws: the `try` block covers the
`onReady` call, so the exception is swallowed and a re-run is scheduled.  With
the probe truthy twice and `onReady` throwing the first time, `onReady` is
invoked twice: in one chain of polls, and in the run from the constructor
through the embed callback and timer 0. -/
theorem onReady_invoked_twice :
    (pollChain [(.returns (.bool true), .throws), (.returns (.bool true), .returns .undefined)]
        { loadedCamera with options := sampleOptions } loadedEnv).2.onReadyCalls
        = [(0, [.null]), (0, [.null])] ∧
      (waitForVideoReady { loadedCamera with options := sampleOptions } loadedEnv
        (.returns (.bool true)) .throws).env.timers
        = [{ handle := 0, delay := 500, target := 0 }] ∧
      (runEvents [.timer 0 (.returns (.bool true)) (.returns .undefined)]
        (construct 0 sampleOptions 640 480 sampleEnv
          (.immediate (.bool true) (.returns (.bool true)) .throws)).state).2.onReadyCalls
        = [(0, [.null]), (0, [.null])] := by
  decide

/-- C9 fails on the code: with swfobject absent and callbacks that return,
`engineCheck` invokes `failure` and then `success` as well. -/
theorem engineCheck_calls_both :
    engineCheck { sampleEnv with swfobject := false } (.returns .undefined) (.returns .undefined)
      = (.returned .undefined,
          [.failure "JpegCamera: SWFObject is not loaded.", .success]) := by
  decide
